import Mathlib

/-!
Verification of the Project-Roza per-request workflow and admin command
interpreter against its specification.  The definitions below are a shallow
embedding of `src/service/integrated_workflow.py`,
`src/service/command_unified.py` and `src/service/process_structured_output.py`:

* ISO-8601 timestamp strings stored in documents are modeled by the instant
  they denote (`Timestamp`: rational epoch seconds as produced by
  `datetime.timestamp()`, together with the calendar fields the code reads).
* Python machine floats only appear as cosine similarities `d / sqrt m`
  with `d m : Int`, `d ≥ 0`, `m > 0`; these are represented exactly by the
  pair `(d, m)` and compared by cross-multiplying squares.
* The MongoDB collection is a list of typed documents; `find_one` is the
  first match in insertion order, `insert` appends, `update_one` rewrites
  the first matching document.
* `random.choice` is modeled by an explicit `pick : Nat` argument choosing
  `pick % length` from the pool.
-/

namespace Roza

/-- A point in time.  The code stores `datetime.utcnow().isoformat()`
strings; we keep the instant as integer microseconds since the epoch
(`datetime` has microsecond resolution, and `datetime.timestamp()` /
`time.time()` floats are exact at that granularity) together with the
calendar fields that `check_usage_limit` / context formatting extract. -/
structure Timestamp where
  epochMicros : Int
  year : Nat
  month : Nat
  day : Nat
  hour : Nat
  minute : Nat
  second : Nat
deriving DecidableEq, Repr

/-- Microseconds per second: seconds-valued configuration numbers are scaled
by this factor when compared with microsecond-valued instants. -/
def SECOND_MICROS : Int := 1000000

/-- The seven fixed persona attribute keys (`_get_default_persona_attributes`). -/
structure PersonaAttributes where
  basic_info : String
  living_habits : String
  psychological_traits : String
  interests_preferences : String
  dislikes : String
  ai_expectations : String
  memory_points : String
deriving DecidableEq, Repr

/-- `block_stats` sub-document: `block_status` True means pass/allowed. -/
structure BlockStats where
  block_status : Bool
  block_count : Int
  last_operate_time : Timestamp
deriving DecidableEq, Repr

/-- `total_usage` sub-document. -/
structure TotalUsage where
  total_chat_count : Int
  total_tokens : Int
  total_prompt_token : Int
  total_output_token : Int
deriving DecidableEq, Repr

/-- One `long_term_memory` entry: either the dict format
`{user_input, memory_description, hit_count}` or a legacy bare string. -/
inductive MemoryEntry where
  | dictE (user_input memory_description : String) (hit_count : Int)
  | strE (s : String)
deriving DecidableEq, Repr

/-- One `history_entries` entry.  The `output` value is modeled by the
response text the code renders from it (`output.get("response", str(output))`
for dicts, `str(output)` otherwise). -/
structure HistoryEntry where
  user_name : String
  user_query : String
  output : String
  created_at : Timestamp
deriving DecidableEq, Repr

/-- A user document of the `user_data` collection. -/
structure UserDoc where
  bot_id : String
  group_id : String
  user_id : String
  favor_value : Int
  last_favor_change : Int
  persona_attributes : PersonaAttributes
  block_stats : BlockStats
  daily_usage_count : Int
  total_usage : TotalUsage
  long_term_memory : List MemoryEntry
  history_entries : List HistoryEntry
  history_stats_total_histories : Int
  created_at : Timestamp
  updated_at : Timestamp
deriving DecidableEq, Repr

def TEMPLATE_GROUP_ID : String := "9999"

def default_persona_attributes : PersonaAttributes :=
  ⟨"", "", "", "", "", "", ""⟩

def default_block_stats (now : Timestamp) : BlockStats :=
  ⟨true, 0, now⟩

def default_total_usage : TotalUsage :=
  ⟨0, 0, 0, 0⟩

/-- The four cross-group flags installed by `set_cross_group_config`. -/
structure CrossGroupConfig where
  favor_cross_group : String
  persona_cross_group : String
  blacklist_cross_group : String
  usage_limit_cross_group : String
deriving DecidableEq, Repr

/-! ## UtilityFunctions -/

/-- The duck-typed message pools (str, list of str, or None). -/
inductive MessagePool where
  | noneV : MessagePool
  | strV : String → MessagePool
  | listV : List String → MessagePool
deriving DecidableEq, Repr

/-- Python truthiness of a message pool value. -/
def MessagePool.truthy : MessagePool → Bool
  | .noneV => false
  | .strV s => !s.isEmpty
  | .listV xs => !xs.isEmpty

/-- `UtilityFunctions.random_message`; `random.choice` is modeled by the
explicit `pick` argument. -/
def random_message (messages : MessagePool) (pick : Nat) : String :=
  match messages with
  | .listV xs => if xs.isEmpty then "" else xs.getD (pick % xs.length) ""
  | .strV s => if !s.isEmpty then s else ""
  | .noneV => ""

/-- Digit-run value; `none` when empty or a non-digit appears. -/
def digitsToNat? (cs : List Char) : Option Nat :=
  if cs.isEmpty then none
  else if cs.all (fun c => c.isDigit) then
    some (cs.foldl (fun n c => n * 10 + (c.toNat - 48)) 0)
  else none

/-- Python `int(s)` for an optionally signed ASCII digit string
(the subset the configuration strings use). -/
def pyParseInt (s : String) : Option Int :=
  match s.data with
  | '+' :: rest => (digitsToNat? rest).map (fun n => (n : Int))
  | '-' :: rest => (digitsToNat? rest).map (fun n => -(n : Int))
  | cs => (digitsToNat? cs).map (fun n => (n : Int))

/-- Python `str.strip()`: drop leading and trailing whitespace. -/
def pyStrip (s : String) : String :=
  String.mk (((s.data.dropWhile Char.isWhitespace).reverse.dropWhile
    Char.isWhitespace).reverse)

/-- `UtilityFunctions.safe_int_convert` on a string value: blank input or a
parse failure yields the default. -/
def safe_int_convert (s : String) (dflt : Int) : Int :=
  if (pyStrip s).isEmpty then dflt
  else (pyParseInt (pyStrip s)).getD dflt

/-- Python `int()` applied to a microseconds-valued quantity: whole seconds,
truncated toward zero. -/
def truncSecondsOfMicros (m : Int) : Int :=
  if 0 ≤ m then m / SECOND_MICROS else -((-m) / SECOND_MICROS)

/-! ## FavorManager.generate_favor_prompt -/

/-- The split-point cleaning loop: keep a value when it is strictly greater
than the previously kept one (the `int(split)` conversion is the identity on
the already-integer inputs modeled here). -/
def cleanSplitPoints : Option Int → List Int → List Int
  | _, [] => []
  | none, x :: rest => x :: cleanSplitPoints (some x) rest
  | some p, x :: rest =>
    if p < x then x :: cleanSplitPoints (some x) rest
    else cleanSplitPoints (some p) rest

/-- Resize the prompt list to exactly `n` entries by truncating or
repeating the final entry. -/
def resizePrompts (ps : List String) (n : Nat) : List String :=
  if ps.length > n then ps.take n
  else if ps.length < n then ps ++ List.replicate (n - ps.length) (ps.getLastD "")
  else ps

/-- The selection loop: walking split points and prompts in step, return the
prompt at the first split point strictly above the favor value, else the
final prompt (`prompts[len(valid_splits)]`, the head once all split points
are consumed, given that the prompt list was resized to length+1). -/
def pickStagePrompt (favor_value : Int) : List Int → List String → String
  | [], ps => ps.headD ""
  | _ :: _, [] => ""
  | s :: ss, p :: ps =>
    if favor_value < s then p else pickStagePrompt favor_value ss ps

/-- `FavorManager.generate_favor_prompt`. -/
def generate_favor_prompt (prompts₀ : List String) (split_points : List Int)
    (favor_value : Int) : String :=
  let valid_splits := cleanSplitPoints none split_points
  let prompts₁ := if prompts₀.isEmpty then ["好感度系统正常"] else prompts₀
  let stage_count := valid_splits.length + 1
  let prompts := resizePrompts prompts₁ stage_count
  pickStagePrompt favor_value valid_splits prompts

/-- `FavorManager.get_favor_prompt` after the document read: returns
(favor value, stage prompt, enhanced main prompt). -/
def get_favor_prompt_core (favor_value : Int) (prompts : List String)
    (split_points : List Int) (main_prompt : String) : Int × String × String :=
  let favor_prompt := generate_favor_prompt prompts split_points favor_value
  (favor_value, favor_prompt, main_prompt ++ "十分重要！" ++ favor_prompt ++ "。\n")

/-! ## IntegratedWorkflow.step_2_input_length_check -/

structure Step2Result where
  continue_to_step_3 : Bool
  stop_reason : Option String
  stop_message : String
  input_length : Int
  max_length : Int
deriving DecidableEq, Repr

/-- `IntegratedWorkflow.step_2_input_length_check`.  `len(user_query) if
user_query else 0` equals the plain length, so it is modeled directly. -/
def step_2_input_length_check (user_query max_input_size : String)
    (overinput_output : MessagePool) (pick : Nat) : Step2Result :=
  let max_length := safe_int_convert max_input_size 0
  let input_length : Int := user_query.length
  if input_length < max_length || max_length == 0 then
    ⟨true, none, " ", input_length, max_length⟩
  else
    let stop_message :=
      if overinput_output.truthy then random_message overinput_output pick
      else "这么长谁看的过来啦……"
    ⟨false, some "input_exceeds_max_length", stop_message, input_length, max_length⟩

/-! ## BlacklistManager.check_blacklist_status -/

structure BlacklistCheckOutcome where
  allow_continue : Bool
  stop_message : String
  block_status : Bool
  new_block_stats : BlockStats
  need_update : Bool
deriving DecidableEq, Repr

/-- The body of `BlacklistManager.check_blacklist_status` after the
`block_stats` read: decides the outcome, the (possibly) rewritten stats and
whether they are written back.  `warn_lifespan` / `block_lifespan` are in
seconds, `timestampMicros` and the stored `last_operate_time` in
microseconds. -/
def check_blacklist_core (stats : BlockStats) (warn_lifespan block_lifespan : Int)
    (timestampMicros : Int) : BlacklistCheckOutcome :=
  let delta_time := timestampMicros - stats.last_operate_time.epochMicros
  if stats.block_status then
    if stats.block_count == 0 then
      ⟨true, " ", stats.block_status, stats, false⟩
    else
      if delta_time ≥ warn_lifespan * SECOND_MICROS then
        ⟨true, " ", stats.block_status, { stats with block_count := 0 }, true⟩
      else
        ⟨true, " ", stats.block_status, stats, false⟩
  else
    if delta_time ≥ block_lifespan * SECOND_MICROS then
      ⟨true, " ", stats.block_status, { stats with block_status := true }, true⟩
    else
      let left_block_time := truncSecondsOfMicros (block_lifespan * SECOND_MICROS - delta_time)
      ⟨false, "不想理你，" ++ toString left_block_time ++ "秒后再来吧",
        stats.block_status, stats, false⟩

/-! ## UsageLimitManager -/

/-- Python `str.zfill(w)`: left-pad with zeros to width `w`, after a sign. -/
def pyZfill (s : String) (w : Nat) : String :=
  if s.length ≥ w then s
  else
    match s.data with
    | '-' :: rest => "-" ++ String.mk (List.replicate (w - s.length) '0') ++ String.mk rest
    | '+' :: rest => "+" ++ String.mk (List.replicate (w - s.length) '0') ++ String.mk rest
    | _ => String.mk (List.replicate (w - s.length) '0') ++ s

/-- `UsageLimitManager.format_date`. -/
def format_date (year month day : String) : String :=
  let year_str := if !year.isEmpty then pyZfill year 4 else "1970"
  let month_str := if !month.isEmpty then pyZfill month 2 else "01"
  let day_str := if !day.isEmpty then pyZfill day 2 else "01"
  let date_str := year_str ++ month_str ++ day_str
  if date_str.length == 8 && date_str.data.all Char.isDigit then date_str
  else "19700101"

/-- Zero-pad a natural number to at least `w` digits (Python `f"{n:0wd}"`). -/
def pad0 (n w : Nat) : String :=
  let s := toString n
  if s.length ≥ w then s else String.mk (List.replicate (w - s.length) '0') ++ s

/-- The `YYYYMMDD` integer `check_usage_limit` extracts from the document's
`updated_at` timestamp (in the typed model the stored timestamp always
parses, so the `19700101` fallback only covers an unparsable pad). -/
def dateValOfTimestamp (t : Timestamp) : Int :=
  (pyParseInt (pad0 t.year 4 ++ pad0 t.month 2 ++ pad0 t.day 2)).getD 19700101

structure UsageCheckOutcome where
  allow_continue : Bool
  stop_message : String
  new_usage_count : Int
  new_request_date : String
  writes_count : Bool
deriving DecidableEq, Repr

/-- The body of `UsageLimitManager.check_usage_limit` after the two document
reads (`daily_usage_count` and `updated_at`).  `writes_count` is the
condition `allow_continue or current_date_val > last_request_date_val`
guarding the database write.  The `safe_int_convert` applied to the stored
count is the identity on the typed integer field. -/
def check_usage_limit_core (current_usage : Int) (updated_at : Timestamp)
    (usage_limit : Int) (year month day : String)
    (overusage_output : MessagePool) (pick : Nat) : UsageCheckOutcome :=
  let current_usage_val := current_usage
  let current_date_str := format_date year month day
  let current_date_val := safe_int_convert current_date_str 19700101
  let last_request_date_val := dateValOfTimestamp updated_at
  if current_date_val > last_request_date_val then
    ⟨true, " ", 1, current_date_str, true⟩
  else if current_date_val == last_request_date_val then
    if current_usage_val < usage_limit then
      ⟨true, " ", current_usage_val + 1, current_date_str, true⟩
    else if current_usage_val == usage_limit then
      ⟨true, " ", current_usage_val + 1, current_date_str, true⟩
    else
      ⟨false,
        (if overusage_output.truthy then random_message overusage_output pick
         else "今日用量已达上限"),
        current_usage_val, current_date_str, false⟩
  else
    ⟨false, "日期异常，请稍后重试", current_usage_val, current_date_str, false⟩

/-! ## PersonaManager -/

/-- The persona summary text `PersonaManager.get_persona_prompt` builds from
the seven attribute fields. -/
def build_persona_text (attrs : PersonaAttributes) : String :=
  let parts :=
    (if !attrs.basic_info.isEmpty then ["基本信息: " ++ attrs.basic_info] else []) ++
    (if !attrs.living_habits.isEmpty then ["生活习惯: " ++ attrs.living_habits] else []) ++
    (if !attrs.psychological_traits.isEmpty then ["心理特征: " ++ attrs.psychological_traits] else []) ++
    (if !attrs.interests_preferences.isEmpty then ["兴趣偏好: " ++ attrs.interests_preferences] else []) ++
    (if !attrs.dislikes.isEmpty then ["反感点: " ++ attrs.dislikes] else []) ++
    (if !attrs.ai_expectations.isEmpty then ["对AI的期望: " ++ attrs.ai_expectations] else []) ++
    (if !attrs.memory_points.isEmpty then ["希望记住的信息: " ++ attrs.memory_points] else [])
  if parts.isEmpty then "暂无用户画像信息" else String.intercalate "；" parts

/-- `PersonaManager.get_persona_prompt` after the document read:
(persona text, enhanced main prompt). -/
def get_persona_prompt_core (attrs : PersonaAttributes) (main_prompt : String) :
    String × String :=
  let persona_text := build_persona_text attrs
  (persona_text, main_prompt ++ "\n用户画像：" ++ persona_text ++ "\n")

/-! ## ContextManager -/

/-- Format `created_at` as the Chinese year-month-day-h-m-s rendering. -/
def formatHistoryTime (t : Timestamp) : String :=
  toString t.year ++ "年" ++ toString t.month ++ "月" ++ toString t.day ++ "日" ++
    toString t.hour ++ "时" ++ toString t.minute ++ "分" ++ toString t.second ++ "秒"

/-- One formatted context unit. -/
def formatHistoryEntry (e : HistoryEntry) : String :=
  "\x7b" ++ formatHistoryTime e.created_at ++ ":" ++ e.user_name ++ "说" ++
    e.user_query ++ "；你对此的反应是" ++ e.output ++ "\x7d"

/-- Python `xs[-n:]` for `n > 0`: the last `min n (length xs)` elements. -/
def takeRight {α : Type} (xs : List α) (n : Nat) : List α :=
  xs.drop (xs.length - n)

/-- `ContextManager.get_context_prompt` after the document read:
(context text, context count, enhanced main prompt). -/
def get_context_prompt_core (history_entries : List HistoryEntry)
    (context_pool_size : Int) (main_prompt : String) : String × Nat × String :=
  let recent :=
    if context_pool_size ≤ 0 then []
    else if history_entries.isEmpty then []
    else takeRight history_entries context_pool_size.toNat
  if recent.isEmpty then ("暂无历史对话记录", 0, main_prompt)
  else
    let context_text := String.intercalate "\n" (recent.map formatHistoryEntry)
    (context_text, recent.length,
      main_prompt ++ "\n历史对话上下文：\n" ++ context_text ++ "\n")

/-! ## MemoryManager

The cosine similarity of two count vectors is `d / sqrt m` with integer
`d ≥ 0` and `m > 0`; it is represented exactly by the pair `(d, m)` (a zero
similarity, including the zero-norm fallback, is `(0, 1)`) and compared by
cross-multiplying squares, which agrees with the real-number ordering. -/

/-- Characters matched by the regex `[\w一-鿿]` for the
ASCII-plus-CJK alphabet the texts use. -/
def isWordChar (c : Char) : Bool :=
  c.isAlphanum || c == '_' || (0x4e00 ≤ c.toNat && c.toNat ≤ 0x9fff)

/-- ASCII lowercasing of one character (Python `str.lower` on this alphabet). -/
def charLower (c : Char) : Char := c.toLower

/-- Collect maximal word-character runs (`re.findall` of the token regex). -/
def tokenRuns : List Char → List Char → List String
  | acc, [] => if acc.isEmpty then [] else [String.mk acc.reverse]
  | acc, c :: cs =>
    if isWordChar c then tokenRuns (c :: acc) cs
    else if acc.isEmpty then tokenRuns [] cs
    else String.mk acc.reverse :: tokenRuns [] cs

/-- `MemoryManager.simple_tokenizer`. -/
def simple_tokenizer (text : String) : List String :=
  if text.isEmpty then [] else tokenRuns [] (text.data.map charLower)

/-- Lexicographic comparison of strings by code points (Python `<`). -/
def charListLt : List Char → List Char → Bool
  | [], [] => false
  | [], _ :: _ => true
  | _ :: _, [] => false
  | a :: as, b :: bs =>
    if a.toNat < b.toNat then true
    else if b.toNat < a.toNat then false
    else charListLt as bs

def strLt (a b : String) : Bool := charListLt a.data b.data

/-- Keep the first occurrence of each element (set contents). -/
def dedupStrings (xs : List String) : List String :=
  xs.foldl (fun acc x => if acc.contains x then acc else acc ++ [x]) []

def insertAsc (x : String) : List String → List String
  | [] => [x]
  | y :: ys => if strLt x y then x :: y :: ys else y :: insertAsc x ys

/-- Ascending sort by code points (`sorted` on deduplicated strings). -/
def sortStrings (xs : List String) : List String :=
  xs.foldr insertAsc []

/-- `MemoryManager.build_vocabulary`: the sorted set of all tokens. -/
def build_vocabulary (texts : List String) : List String :=
  sortStrings (dedupStrings ((texts.map
    (fun t => if t.isEmpty then [] else simple_tokenizer t)).flatten))

/-- `MemoryManager.text_to_vector`: term counts over the vocabulary. -/
def text_to_vector (text : String) (vocabulary : List String) : List Nat :=
  if vocabulary.isEmpty || text.isEmpty then []
  else
    let toks := simple_tokenizer text
    vocabulary.map (fun w => toks.count w)

/-- `MemoryManager.cosine_similarity` as the exact pair representation. -/
def cosine_sim_rep (v1 v2 : List Nat) : Int × Int :=
  if v1.isEmpty || v2.isEmpty then (0, 1)
  else
    let dot := ((v1.zip v2).map (fun p => p.1 * p.2)).sum
    let n1 := (v1.map (fun a => a * a)).sum
    let n2 := (v2.map (fun a => a * a)).sum
    if n1 == 0 || n2 == 0 then (0, 1)
    else ((dot : Int), ((n1 * n2 : Nat) : Int))

/-- `a ≥ b` on represented similarities (`b₁/√b₂ ≤ a₁/√a₂`, dots nonneg). -/
def simGe (a b : Int × Int) : Bool :=
  decide (b.1 * b.1 * a.2 ≤ a.1 * a.1 * b.2)

/-- `0 < a` on represented similarities. -/
def simPos (a : Int × Int) : Bool := decide (0 < a.1)

/-- Stable insertion keeping existing elements with `geq`-equal keys first. -/
def insertByDesc {α : Type} (geq : α → α → Bool) (x : α) : List α → List α
  | [] => [x]
  | y :: ys => if geq x y then x :: y :: ys else y :: insertByDesc geq x ys

/-- Stable descending sort; extensionally equal to CPython's stable
`list.sort(key=..., reverse=True)` for a total preorder. -/
def stableSortDesc {α : Type} (geq : α → α → Bool) (xs : List α) : List α :=
  xs.foldr (insertByDesc geq) []

/-- Python `xs[:n]` including the negative-`n` convention. -/
def pySliceTo {α : Type} (xs : List α) (n : Int) : List α :=
  if 0 ≤ n then xs.take n.toNat else xs.take (xs.length - (-n).toNat)

/-- A hit-memory record: the dict entries get their incremented
`hit_count`, legacy string entries are reported with `hit_count` 1. -/
inductive HitMemory where
  | full (user_input memory_description : String) (hit_count : Int)
  | legacy (memory_description : String)
deriving DecidableEq, Repr

structure MemoryOutcome where
  hit_memories : List HitMemory
  new_long_term_memory : List MemoryEntry
  did_write : Bool
  enhanced_main_prompt : String
deriving DecidableEq, Repr

/-- The `memory_inputs` selection: dict entries contribute their non-empty
`user_input`, legacy strings contribute themselves. -/
def memoryEntryInput? : MemoryEntry → Option String
  | .dictE ui _ _ => if ui.isEmpty then none else some ui
  | .strE s => some s

/-- `MemoryManager.get_memory_prompt` after the document read.  Note the
source indexes `long_term_memory` with positions taken from the filtered
`memory_inputs` list (its `i >= len(long_term_memory)` break guard models
the same positions); the in-place `hit_count` mutation and the conditional
write-back are returned explicitly. -/
def get_memory_prompt_core (long_term_memory : List MemoryEntry)
    (user_query main_prompt : String) (memory_retrieval_number : Int) :
    MemoryOutcome :=
  if long_term_memory.isEmpty || user_query.isEmpty then
    ⟨[], long_term_memory, false, main_prompt⟩
  else
    let memory_inputs := long_term_memory.filterMap memoryEntryInput?
    if memory_inputs.isEmpty then ⟨[], long_term_memory, false, main_prompt⟩
    else
      let all_texts := memory_inputs ++ [user_query]
      let vocabulary := build_vocabulary all_texts
      let query_vector := text_to_vector user_query vocabulary
      let similarities :=
        (memory_inputs.enum.filter
          (fun p => decide (p.1 < long_term_memory.length))).map
          (fun p => (cosine_sim_rep query_vector (text_to_vector p.2 vocabulary), p.1))
      let sorted := stableSortDesc (fun p q => simGe p.1 q.1) similarities
      let top_k : Int := min memory_retrieval_number (sorted.length : Int)
      let top_indices :=
        (pySliceTo sorted top_k).filterMap
          (fun p => if simPos p.1 then some p.2 else none)
      let hit_memories := top_indices.filterMap (fun idx =>
        (long_term_memory.get? idx).map (fun e =>
          match e with
          | .dictE ui d h => HitMemory.full ui d (h + 1)
          | .strE s => HitMemory.legacy s))
      let memory_descriptions := top_indices.filterMap (fun idx =>
        (long_term_memory.get? idx).bind (fun e =>
          match e with
          | .dictE _ d _ => if d.isEmpty then none else some d
          | .strE s => some s))
      let new_ltm := long_term_memory.enum.map (fun p =>
        if top_indices.contains p.1 then
          match p.2 with
          | .dictE ui d h => MemoryEntry.dictE ui d (h + 1)
          | e => e
        else p.2)
      let did_write := !hit_memories.isEmpty
      let enhanced :=
        if !memory_descriptions.isEmpty then
          main_prompt ++ "\n\n相关记忆：\n" ++
            String.intercalate "\n" memory_descriptions ++ "\n"
        else main_prompt
      ⟨hit_memories, new_ltm, did_write, enhanced⟩

/-! ## MongoDBSystem: the document store

The `user_data` collection is a list of documents in insertion order;
`find_one` returns the first match, `insert_one` appends, `update_one`
rewrites the first matching document (keys are unique by the collection's
index, so first-match update equals Mongo's single-document update). -/

abbrev Store := List UserDoc

def docKeyMatches (d : UserDoc) (b g u : String) : Bool :=
  d.bot_id == b && d.group_id == g && d.user_id == u

def find_one (store : Store) (b g u : String) : Option UserDoc :=
  store.find? (fun d => docKeyMatches d b g u)

/-- The `$nin`-query for a sibling-group document (`.limit(1)`, first found
in insertion order). -/
def other_group_doc? (store : Store) (b g u : String) : Option UserDoc :=
  store.find? (fun d =>
    d.bot_id == b && d.user_id == u &&
    d.group_id != TEMPLATE_GROUP_ID && d.group_id != g)

/-- `MongoDBSystem._create_template_from_source` (without the insert). -/
def create_template_from_source (b u : String) (source_doc : UserDoc)
    (now : Timestamp) : UserDoc :=
  { bot_id := b
    group_id := TEMPLATE_GROUP_ID
    user_id := u
    favor_value := source_doc.favor_value
    last_favor_change := source_doc.last_favor_change
    persona_attributes := source_doc.persona_attributes
    block_stats := source_doc.block_stats
    daily_usage_count := source_doc.daily_usage_count
    total_usage := default_total_usage
    long_term_memory := source_doc.long_term_memory
    history_entries := []
    history_stats_total_histories := 0
    created_at := now
    updated_at := now }

/-- The `get_value` helper of `_build_document_from_template`: inherit the
template's field only when the per-feature cross-group flag is "enable". -/
def get_inherit_value {α : Type} (template : Option UserDoc) (f : UserDoc → α)
    (default_value : α) (cross_group_enabled : String) : α :=
  match template with
  | some t => if cross_group_enabled == "enable" then f t else default_value
  | none => default_value

/-- `MongoDBSystem._build_document_from_template`. -/
def build_document_from_template (cfg : CrossGroupConfig) (b g u : String)
    (template : Option UserDoc) (now : Timestamp) : UserDoc :=
  { bot_id := b
    group_id := g
    user_id := u
    block_stats := get_inherit_value template (fun d => d.block_stats)
      (default_block_stats now) cfg.blacklist_cross_group
    favor_value := get_inherit_value template (fun d => d.favor_value) 0
      cfg.favor_cross_group
    last_favor_change := get_inherit_value template (fun d => d.last_favor_change) 0
      cfg.favor_cross_group
    persona_attributes := get_inherit_value template (fun d => d.persona_attributes)
      default_persona_attributes cfg.persona_cross_group
    daily_usage_count := get_inherit_value template (fun d => d.daily_usage_count) 0
      cfg.usage_limit_cross_group
    total_usage := default_total_usage
    long_term_memory := []
    history_entries := []
    history_stats_total_histories := 0
    created_at := now
    updated_at := now }

/-- `MongoDBSystem.get_document`: return the existing document, otherwise
build (and insert) a new one, lazily backfilling the `9999` template from a
sibling-group document when no template exists; the final re-read returns
the freshly inserted document. -/
def get_document (cfg : CrossGroupConfig) (store : Store) (b g u : String)
    (now : Timestamp) : UserDoc × Store :=
  match find_one store b g u with
  | some document => (document, store)
  | none =>
    match find_one store b TEMPLATE_GROUP_ID u, other_group_doc? store b g u with
    | none, some source_doc =>
      let template_doc := create_template_from_source b u source_doc now
      let new_doc := build_document_from_template cfg b g u (some template_doc) now
      (new_doc, (store ++ [template_doc]) ++ [new_doc])
    | template_doc, _ =>
      let new_doc := build_document_from_template cfg b g u template_doc now
      (new_doc, store ++ [new_doc])

/-- The typed field values the workflow writes back through
`update_field`/`update_document`. -/
inductive FieldValue where
  | blockStatsV (v : BlockStats)
  | dailyUsageV (v : Int)
  | longTermMemoryV (v : List MemoryEntry)
deriving DecidableEq, Repr

/-- Apply a `$set` of one field plus the `updated_at` stamp. -/
def setFieldValue (d : UserDoc) (v : FieldValue) (now : Timestamp) : UserDoc :=
  match v with
  | .blockStatsV s => { d with block_stats := s, updated_at := now }
  | .dailyUsageV n => { d with daily_usage_count := n, updated_at := now }
  | .longTermMemoryV m => { d with long_term_memory := m, updated_at := now }

/-- `MongoDBSystem.update_field`: update the first matching document.  The
`upsert` arm is unreachable in the workflow (every write follows a
`get_document` that inserted the document), so a missing key is a no-op. -/
def update_field (store : Store) (b g u : String) (v : FieldValue)
    (now : Timestamp) : Store :=
  match store with
  | [] => []
  | d :: rest =>
    if docKeyMatches d b g u then setFieldValue d v now :: rest
    else d :: update_field rest b g u v now

/-- `BlacklistManager.check_blacklist_status` over the store. -/
def check_blacklist_status (cfg : CrossGroupConfig) (store : Store)
    (b g u : String) (warn_lifespan block_lifespan : Int)
    (timestampMicros : Int) (now : Timestamp) : BlacklistCheckOutcome × Store :=
  let read := get_document cfg store b g u now
  let r := check_blacklist_core read.1.block_stats warn_lifespan block_lifespan
    timestampMicros
  if r.need_update then
    (r, update_field read.2 b g u (.blockStatsV r.new_block_stats) now)
  else (r, read.2)

/-! ## IntegratedWorkflow: the seven steps and main -/

/-- The dynamically typed `block_status` value of the step-1 result: the
literal string "pass" on the skip path, otherwise the document's boolean. -/
inductive BStatusVal where
  | passS : BStatusVal
  | boolS : Bool → BStatusVal
deriving DecidableEq, Repr

structure Step1Result where
  continue_to_step_2 : Bool
  stop_reason : Option String
  stop_message : String
  block_status : BStatusVal
deriving DecidableEq, Repr

/-- The tail of `step_1_blacklist_check` after the blacklist check ran:
route on `allow_continue`. -/
def step_1_after_check (checked : BlacklistCheckOutcome × Store) :
    Step1Result × Store :=
  if checked.1.allow_continue then
    (⟨true, none, checked.1.stop_message, .boolS checked.1.block_status⟩, checked.2)
  else
    (⟨false, some "block", checked.1.stop_message, .boolS checked.1.block_status⟩,
      checked.2)

/-- `IntegratedWorkflow.step_1_blacklist_check`: skip (allowed, untouched
store) when the system is disabled, or enabled but admin-exempt with an
admin caller; otherwise run the check. -/
def step_1_blacklist_check (cfg : CrossGroupConfig) (store : Store)
    (b g u : String)
    (blacklist_system is_user_admin blacklist_restrict_admin_users : String)
    (warn_lifespan block_lifespan : String) (timestampMicros : Int)
    (now : Timestamp) : Step1Result × Store :=
  if (blacklist_system == "disable") ||
      (blacklist_system == "enable" && blacklist_restrict_admin_users == "disable" &&
        is_user_admin == "true") then
    (⟨true, none, " ", .passS⟩, store)
  else
    step_1_after_check (check_blacklist_status cfg store b g u
      (safe_int_convert warn_lifespan 0) (safe_int_convert block_lifespan 0)
      timestampMicros now)

structure Step3Result where
  continue_to_step_4 : Bool
  stop_reason : Option String
  stop_message : String
  usage_current : Int
  usage_limit_val : Int
  usage_date : String
deriving DecidableEq, Repr

/-- The tail of `step_3_usage_limit_check` after the usage check ran: write
the count on the allow paths (`writes_count`) and route on
`allow_continue`. -/
def step_3_after_check (b g u : String)
    (usage_limit_int : Int) (r : UsageCheckOutcome) (readStore : Store)
    (now : Timestamp) : Step3Result × Store :=
  if r.allow_continue then
    (⟨true, none, r.stop_message, r.new_usage_count, usage_limit_int,
      r.new_request_date⟩,
     if r.writes_count then
       update_field readStore b g u (.dailyUsageV r.new_usage_count) now
     else readStore)
  else
    (⟨false, some "overusage", r.stop_message, r.new_usage_count,
      usage_limit_int, r.new_request_date⟩,
     if r.writes_count then
       update_field readStore b g u (.dailyUsageV r.new_usage_count) now
     else readStore)

/-- `IntegratedWorkflow.step_3_usage_limit_check`.  The two `get_field`
calls of the source resolve against the same key (the first may create the
document, the second then finds it), so they are modeled by a single
`get_document`. -/
def step_3_usage_limit_check (cfg : CrossGroupConfig) (store : Store)
    (b g u : String)
    (usage_limit_system usage_restrict_admin_users is_user_admin : String)
    (usage_limit year month day : String) (overusage_output : MessagePool)
    (pick : Nat) (now : Timestamp) : Step3Result × Store :=
  if (usage_limit_system == "disable") ||
      (usage_limit_system == "enable" && usage_restrict_admin_users == "disable" &&
        is_user_admin == "true") then
    (⟨true, none, " ", 0, 0, year ++ month ++ day⟩, store)
  else
    step_3_after_check b g u (safe_int_convert usage_limit 0)
      (check_usage_limit_core (get_document cfg store b g u now).1.daily_usage_count
        (get_document cfg store b g u now).1.updated_at
        (safe_int_convert usage_limit 0) year month day overusage_output pick)
      (get_document cfg store b g u now).2 now

structure Step4Result where
  favor_value : Int
  favor_prompt : String
  enhanced_main_prompt : String
deriving DecidableEq, Repr

/-- `IntegratedWorkflow.step_4_favor_prompt` (the `int()` coercion of the
stored favor value is the identity on the typed field). -/
def step_4_favor_prompt (cfg : CrossGroupConfig) (store : Store)
    (b g u : String) (favor_system : String)
    (favor_prompts : Option (List String)) (favor_split_points : Option (List Int))
    (main_prompt : String) (now : Timestamp) : Step4Result × Store :=
  if favor_system == "disable" then (⟨0, "", main_prompt⟩, store)
  else
    let prompts := favor_prompts.getD []
    let split_points := favor_split_points.getD []
    let read := get_document cfg store b g u now
    let r := get_favor_prompt_core read.1.favor_value prompts split_points main_prompt
    (⟨r.1, r.2.1, r.2.2⟩, read.2)

structure Step5Result where
  persona_text : String
  enhanced_main_prompt : String
deriving DecidableEq, Repr

/-- `IntegratedWorkflow.step_5_persona_prompt`. -/
def step_5_persona_prompt (cfg : CrossGroupConfig) (store : Store)
    (b g u : String) (persona_system main_prompt : String) (now : Timestamp) :
    Step5Result × Store :=
  if persona_system == "disable" then (⟨"", main_prompt⟩, store)
  else
    let read := get_document cfg store b g u now
    let r := get_persona_prompt_core read.1.persona_attributes main_prompt
    (⟨r.1, r.2⟩, read.2)

/-- The step-6 result; the disabled branch of the source omits the
`context_count` key (`none` here), and `main` later defaults it to 0. -/
structure Step6Result where
  context_text : String
  context_count : Option Nat
  enhanced_main_prompt : String
deriving DecidableEq, Repr

/-- `IntegratedWorkflow.step_6_context_prompt`. -/
def step_6_context_prompt (cfg : CrossGroupConfig) (store : Store)
    (b g u : String) (context_system context_pool_size main_prompt : String)
    (now : Timestamp) : Step6Result × Store :=
  if context_system == "disable" then (⟨"", none, main_prompt⟩, store)
  else
    let pool_size := safe_int_convert context_pool_size 0
    let read := get_document cfg store b g u now
    let r := get_context_prompt_core read.1.history_entries pool_size main_prompt
    (⟨r.1, some r.2.1, r.2.2⟩, read.2)

structure Step7Result where
  stop_reason : String
  stop_message : String
  hit_memories : List HitMemory
  enhanced_main_prompt : String
deriving DecidableEq, Repr

/-- `IntegratedWorkflow.step_7_memory_prompt`. -/
def step_7_memory_prompt (cfg : CrossGroupConfig) (store : Store)
    (b g u : String) (memory_system user_query memory_retrieval_number : String)
    (main_prompt : String) (now : Timestamp) : Step7Result × Store :=
  if memory_system == "disable" then (⟨"finish", " ", [], main_prompt⟩, store)
  else
    let retrieval_num := safe_int_convert memory_retrieval_number 5
    let read := get_document cfg store b g u now
    let r := get_memory_prompt_core read.1.long_term_memory user_query main_prompt
      retrieval_num
    let store₂ :=
      if r.did_write then
        update_field read.2 b g u (.longTermMemoryV r.new_long_term_memory) now
      else read.2
    (⟨"finish", " ", r.hit_memories, r.enhanced_main_prompt⟩, store₂)

/-! ### main -/

/-- The parameters of `integrated_workflow.main`. -/
structure MainArgs where
  bot_id : String
  group_id : String
  user_id : String
  user_query : String
  main_prompt : String
  favor_cross_group : String
  persona_cross_group : String
  blacklist_cross_group : String
  usage_limit_cross_group : String
  blacklist_system : String
  is_user_admin : String
  blacklist_restrict_admin_users : String
  warn_lifespan : String
  block_lifespan : String
  timestampMicros : Int
  max_input_size : String
  overinput_output : MessagePool
  usage_limit_system : String
  usage_restrict_admin_users : String
  usage_limit : String
  year : String
  month : String
  day : String
  overusage_output : MessagePool
  favor_system : String
  favor_prompts : Option (List String)
  favor_split_points : Option (List Int)
  persona_system : String
  context_system : String
  context_pool_size : String
  memory_system : String
  memory_retrieval_number : String
deriving Repr

/-- The flat result record `main` returns. -/
structure MainResult where
  stop_reason : String
  stop_message : String
  step_stopped_at : Nat
  main_prompt : String
  block_status : BStatusVal
  block_message : String
  step2_input_length : Int
  step2_max_length : Int
  step3_current_usage : Int
  step3_usage_limit : Int
  step3_usage_date : String
  favor_value : Int
  favor_prompt : String
  persona : String
  context : String
  step6_context_count : Nat
  step7_hit_memories : String
deriving DecidableEq, Repr

def mainCfg (a : MainArgs) : CrossGroupConfig :=
  ⟨a.favor_cross_group, a.persona_cross_group, a.blacklist_cross_group,
    a.usage_limit_cross_group⟩

def runStep1 (a : MainArgs) (store : Store) (now : Timestamp) :
    Step1Result × Store :=
  step_1_blacklist_check (mainCfg a) store a.bot_id a.group_id a.user_id
    a.blacklist_system a.is_user_admin a.blacklist_restrict_admin_users
    a.warn_lifespan a.block_lifespan a.timestampMicros now

def runStep2 (a : MainArgs) (pick2 : Nat) : Step2Result :=
  step_2_input_length_check a.user_query a.max_input_size a.overinput_output pick2

def runStep3 (a : MainArgs) (store : Store) (pick3 : Nat) (now : Timestamp) :
    Step3Result × Store :=
  step_3_usage_limit_check (mainCfg a) store a.bot_id a.group_id a.user_id
    a.usage_limit_system a.usage_restrict_admin_users a.is_user_admin
    a.usage_limit a.year a.month a.day a.overusage_output pick3 now

/-- JSON string escaping as `json.dumps` performs it
(`ensure_ascii=False`). -/
def jsonEscapeChar (c : Char) : String :=
  if c == '"' then "\\\""
  else if c == '\\' then "\\\\"
  else if c == '\n' then "\\n"
  else if c == '\r' then "\\r"
  else if c == '\t' then "\\t"
  else if c.toNat == 8 then "\\b"
  else if c.toNat == 12 then "\\f"
  else if c.toNat < 32 then
    "\\u00" ++ String.mk [hexDigitLower (c.toNat / 16), hexDigitLower (c.toNat % 16)]
  else String.mk [c]
where
  hexDigitLower (n : Nat) : Char :=
    if n < 10 then Char.ofNat (48 + n) else Char.ofNat (87 + n)

def jsonEscape (s : String) : String :=
  String.join (s.data.map jsonEscapeChar)

/-- `json.dumps` of one hit-memory dict (default separators). -/
def hitMemoryToJson : HitMemory → String
  | .full ui d h =>
    "\x7b\"user_input\": \"" ++ jsonEscape ui ++ "\", \"memory_description\": \"" ++
      jsonEscape d ++ "\", \"hit_count\": " ++ toString h ++ "\x7d"
  | .legacy d =>
    "\x7b\"memory_description\": \"" ++ jsonEscape d ++ "\", \"hit_count\": 1\x7d"

/-- `json.dumps(hit_memories, ensure_ascii=False)`. -/
def hitMemoriesToJson (hs : List HitMemory) : String :=
  "[" ++ String.intercalate ", " (hs.map hitMemoryToJson) ++ "]"

/-- The flattened early-return record when step 1 halts. -/
def haltResultStep1 (a : MainArgs) (s1 : Step1Result) : MainResult :=
  { stop_reason := s1.stop_reason.getD ""
    stop_message := s1.stop_message
    step_stopped_at := 1
    main_prompt := a.main_prompt
    block_status := s1.block_status
    block_message := s1.stop_message
    step2_input_length := 0
    step2_max_length := 0
    step3_current_usage := 0
    step3_usage_limit := 0
    step3_usage_date := " "
    favor_value := 0
    favor_prompt := " "
    persona := " "
    context := " "
    step6_context_count := 0
    step7_hit_memories := " " }

/-- The flattened early-return record when step 2 halts. -/
def haltResultStep2 (a : MainArgs) (s1 : Step1Result) (s2 : Step2Result) :
    MainResult :=
  { stop_reason := s2.stop_reason.getD ""
    stop_message := s2.stop_message
    step_stopped_at := 2
    main_prompt := a.main_prompt
    block_status := s1.block_status
    block_message := s1.stop_message
    step2_input_length := s2.input_length
    step2_max_length := s2.max_length
    step3_current_usage := 0
    step3_usage_limit := 0
    step3_usage_date := " "
    favor_value := 0
    favor_prompt := " "
    persona := " "
    context := " "
    step6_context_count := 0
    step7_hit_memories := " " }

/-- The flattened early-return record when step 3 halts. -/
def haltResultStep3 (a : MainArgs) (s1 : Step1Result) (s2 : Step2Result)
    (s3 : Step3Result) : MainResult :=
  { stop_reason := s3.stop_reason.getD ""
    stop_message := s3.stop_message
    step_stopped_at := 3
    main_prompt := a.main_prompt
    block_status := s1.block_status
    block_message := s1.stop_message
    step2_input_length := s2.input_length
    step2_max_length := s2.max_length
    step3_current_usage := s3.usage_current
    step3_usage_limit := s3.usage_limit_val
    step3_usage_date := s3.usage_date
    favor_value := 0
    favor_prompt := " "
    persona := " "
    context := " "
    step6_context_count := 0
    step7_hit_memories := " " }

/-- The flattened completion record. -/
def finishResult (_a : MainArgs) (s1 : Step1Result) (s2 : Step2Result)
    (s3 : Step3Result) (s4 : Step4Result) (s5 : Step5Result) (s6 : Step6Result)
    (s7 : Step7Result) : MainResult :=
  { stop_reason := "finish"
    stop_message := " "
    step_stopped_at := 7
    main_prompt := s7.enhanced_main_prompt
    block_status := s1.block_status
    block_message := s1.stop_message
    step2_input_length := s2.input_length
    step2_max_length := s2.max_length
    step3_current_usage := s3.usage_current
    step3_usage_limit := s3.usage_limit_val
    step3_usage_date := s3.usage_date
    favor_value := s4.favor_value
    favor_prompt := s4.favor_prompt
    persona := s5.persona_text
    context := s6.context_text
    step6_context_count := s6.context_count.getD 0
    step7_hit_memories := hitMemoriesToJson s7.hit_memories }

/-- `integrated_workflow.main`: the 7-step pipeline with early exit after
the three gates.  `now` is the request's wall-clock instant (the repeated
`datetime.utcnow()` calls of one request), `pick2`/`pick3` the random
choices for the over-input and over-usage pools. -/
def mainWF (a : MainArgs) (store : Store) (now : Timestamp) (pick2 pick3 : Nat) :
    MainResult × Store :=
  let s1p := runStep1 a store now
  if !s1p.1.continue_to_step_2 then (haltResultStep1 a s1p.1, s1p.2)
  else
    let s2 := runStep2 a pick2
    if !s2.continue_to_step_3 then (haltResultStep2 a s1p.1 s2, s1p.2)
    else
      let s3p := runStep3 a s1p.2 pick3 now
      if !s3p.1.continue_to_step_4 then (haltResultStep3 a s1p.1 s2 s3p.1, s3p.2)
      else
        let s4p := step_4_favor_prompt (mainCfg a) s3p.2 a.bot_id a.group_id
          a.user_id a.favor_system a.favor_prompts a.favor_split_points
          a.main_prompt now
        let s5p := step_5_persona_prompt (mainCfg a) s4p.2 a.bot_id a.group_id
          a.user_id a.persona_system s4p.1.enhanced_main_prompt now
        let s6p := step_6_context_prompt (mainCfg a) s5p.2 a.bot_id a.group_id
          a.user_id a.context_system a.context_pool_size
          s5p.1.enhanced_main_prompt now
        let s7p := step_7_memory_prompt (mainCfg a) s6p.2 a.bot_id a.group_id
          a.user_id a.memory_system a.user_query a.memory_retrieval_number
          s6p.1.enhanced_main_prompt now
        (finishResult a s1p.1 s2 s3p.1 s4p.1 s5p.1 s6p.1 s7p.1, s7p.2)

/-! ## command_unified: parse_command and the pre-dispatch phase -/

/-- `str.split()`: whitespace-separated tokens, empties dropped. -/
def wsSplitAux : List Char → List Char → List String
  | acc, [] => if acc.isEmpty then [] else [String.mk acc.reverse]
  | acc, c :: cs =>
    if c.isWhitespace then
      if acc.isEmpty then wsSplitAux [] cs
      else String.mk acc.reverse :: wsSplitAux [] cs
    else wsSplitAux (c :: acc) cs

def pySplitWs (s : String) : List String := wsSplitAux [] s.data

/-- `str.split(sep)` for a one-character separator, keeping empty pieces. -/
def splitOnCharAux (sep : Char) : List Char → List Char → List String
  | acc, [] => [String.mk acc.reverse]
  | acc, c :: cs =>
    if c == sep then String.mk acc.reverse :: splitOnCharAux sep [] cs
    else splitOnCharAux sep (c :: acc) cs

def pySplitOnChar (s : String) (sep : Char) : List String :=
  splitOnCharAux sep [] s.data

/-- `str.lstrip("/")`. -/
def pyLstripSlash (s : String) : String :=
  String.mk (s.data.dropWhile (fun c => c == '/'))

/-- The parsed command shape `(action, type_key, field, has_any, params)`. -/
structure CommandParts where
  action : String
  type_key : String
  field : Option String
  has_any : Bool
  params : List String
deriving DecidableEq, Repr

/-- `command_unified.parse_command`. -/
def parse_command (user_query : String) : CommandParts :=
  let trimmed := pyStrip user_query
  if !("/Roza.".data.isPrefixOf trimmed.data) then ⟨"", "", none, false, []⟩
  else
    let tokens := pySplitWs trimmed
    let command_token := tokens.headD ""
    let params₀ := tokens.tail
    let segments := pySplitOnChar (pyLstripSlash command_token) '.'
    if segments.length < 3 || segments.headD "" != "Roza" then
      ⟨"", "", none, false, []⟩
    else
      let action := segments.getD 1 ""
      let type_key := segments.getD 2 ""
      let fieldAny : Option String × Bool :=
        if segments.getLastD "" == "any" then
          (if segments.length > 4 then
            some (String.intercalate "." ((segments.drop 3).dropLast))
          else none, true)
        else
          (if segments.length > 3 then
            some (String.intercalate "." (segments.drop 3))
          else none, false)
      let params :=
        if params₀.isEmpty && fieldAny.2 then ["%:%:%"]
        else if params₀.isEmpty && !fieldAny.2 then ["all"]
        else params₀
      ⟨action, type_key, fieldAny.1, fieldAny.2, params⟩

/-- The keys of `RANK_FIELDS` in declaration order. -/
def RANK_FIELD_TYPES : List String := ["favor", "usage", "memory", "blacklist"]

/-- `RANK_FIELDS`. -/
def rankFieldsFor : String → List String
  | "favor" => ["favor_value", "last_favor_change"]
  | "usage" => ["daily_usage_count", "total_usage.total_chat_count",
      "total_usage.total_tokens", "total_usage.total_prompt_token",
      "total_usage.total_output_token"]
  | "memory" => ["history_entries"]
  | "blacklist" => ["block_stats.block_count"]
  | _ => []

/-- `command_unified._resolve_rank_field`: exact match or leaf-name match
against the per-type whitelist, first candidate wins. -/
def resolve_rank_field (type_key field : String) : Option String :=
  if field.isEmpty then none
  else if !RANK_FIELD_TYPES.contains type_key then none
  else
    let input_leaf := (pySplitOnChar field '.').getLastD ""
    (rankFieldsFor type_key).find? (fun full_field =>
      field == full_field ||
      input_leaf == (pySplitOnChar full_field '.').getLastD "")

/-- The result record of `execute_command`.  `logs_json` is `none` while the
field still holds the initial empty list and `some s` once the final JSON
dump is stored. -/
structure CommandResponse where
  result : String
  command_type : String
  parameters : List String
  modified_count : Int
  logs_json : Option String
  action : String
  type_key : String
  field : String
  has_any : Bool
deriving DecidableEq, Repr

/-- The initial response dict of `execute_command`. -/
def initialCommandResponse : CommandResponse :=
  ⟨"", "", [], 0, none, "", "", "", false⟩

/-- Outcome of the pre-dispatch phase of `execute_command` (source lines up
to the `MongoDBSystem(mongo_url)` construction): either a response returned
before the store is ever opened, or the validated command handed to the
store-dispatch phase.  The store is only reachable through a `dispatch`
outcome, so a `done` outcome performs no document-store read or write. -/
inductive CommandOutcome where
  | done (r : CommandResponse)
  | dispatch (action type_key : String) (field : Option String) (has_any : Bool)
      (params : List String) (pool_size : Int) (r : CommandResponse)
deriving DecidableEq, Repr

/-- `command_unified.execute_command`, pre-dispatch phase: the admin-only
guard (before any parsing), the `int(context_pool_size)` conversion (the
identity on the typed argument), `parse_command`, and the action/field
validation including rank-field resolution. -/
def execute_command_checked (user_query _bot_id _group_id is_user_admin : String)
    (context_pool_size : Int) : CommandOutcome :=
  if is_user_admin != "true" then
    .done { initialCommandResponse with result := "无管理员权限，无法执行此操作" }
  else
    let pool_size := context_pool_size
    let parts := parse_command user_query
    let command_label :=
      if !parts.type_key.isEmpty then parts.action ++ "." ++ parts.type_key
      else parts.action
    let response₁ := { initialCommandResponse with
      command_type := command_label
      parameters := parts.params
      action := parts.action
      type_key := parts.type_key
      field := parts.field.getD ""
      has_any := parts.has_any }
    if !(["get", "set", "clear", "rank"].contains parts.action) ||
        parts.type_key.isEmpty then
      .done { response₁ with result := "指令格式错误" }
    else if parts.action == "set" && parts.field == none then
      .done { response₁ with result := "set指令必须指定精确字段" }
    else if parts.action == "rank" then
      match parts.field with
      | none => .done { response₁ with result := "rank指令必须指定精确字段" }
      | some f =>
        if !RANK_FIELD_TYPES.contains parts.type_key then
          .done { response₁ with result :=
            "rank指令不支持 " ++ parts.type_key ++
              " 类型，支持类型: favor, usage, memory, blacklist" }
        else
          match resolve_rank_field parts.type_key f with
          | none => .done { response₁ with result :=
              "rank指令不支持 " ++ parts.type_key ++ " 类型的 " ++ f ++ " 字段" }
          | some resolved_field =>
            .dispatch parts.action parts.type_key (some resolved_field)
              parts.has_any parts.params pool_size response₁
    else
      .dispatch parts.action parts.type_key parts.field parts.has_any
        parts.params pool_size response₁

/-- The `clear` dispatch for type `context` with no field (the inline loop
of `execute_command`): over the documents matched by the query, drop the
most recent `pool_size` history entries; a document whose `history_entries`
list is empty (or unchanged by the trim) is skipped entirely — no write, no
`updated_at` stamp.  Returns the rewritten documents and the modified
count. -/
def clear_context_trim : List UserDoc → Int → Timestamp → List UserDoc × Nat
  | [], _, _ => ([], 0)
  | doc :: rest, pool_size, now =>
    let tailRes := clear_context_trim rest pool_size now
    let hist := doc.history_entries
    if hist.isEmpty then (doc :: tailRes.1, tailRes.2)
    else
      let keep := if 0 < pool_size then hist.take (hist.length - pool_size.toNat)
        else hist
      if keep.length != hist.length then
        ({ doc with history_entries := keep, updated_at := now } :: tailRes.1,
          tailRes.2 + 1)
      else (doc :: tailRes.1, tailRes.2)

/-! ## process_structured_output

JSON-shaped payloads.  Python `bool` is a subclass of `int`, so boolean
values satisfy the `(int, float)` isinstance checks.  Numeric payloads are
modeled at integer precision; floating-point payload values lie outside the
model, and the `output`-as-JSON-string input format (parsed with
`json.loads` by the source) is likewise outside the model — the claims
below only concern dict-valued `output` payloads. -/

inductive JVal where
  | jnull : JVal
  | jbool : Bool → JVal
  | jint : Int → JVal
  | jstr : String → JVal
  | jlist : List JVal → JVal
  | jdict : List (String × JVal) → JVal

/-- Python `type(value).__name__`. -/
def typeName : JVal → String
  | .jnull => "NoneType"
  | .jbool _ => "bool"
  | .jint _ => "int"
  | .jstr _ => "str"
  | .jlist _ => "list"
  | .jdict _ => "dict"

/-- Dictionary lookup (`dict.get`): first match, keys are unique. -/
def jget (fields : List (String × JVal)) (k : String) : Option JVal :=
  (fields.find? (fun p => p.1 == k)).map (fun p => p.2)

/-- Python dict assignment: replace in place, else append. -/
def dictSet (fields : List (String × JVal)) (k : String) (v : JVal) :
    List (String × JVal) :=
  if fields.any (fun p => p.1 == k) then
    fields.map (fun p => if p.1 == k then (k, v) else p)
  else fields ++ [(k, v)]

/-- The schema field names, in `FIELD_DEFINITIONS` declaration order (the
source iterates the key set; the iteration order of equal-content sets is
unspecified in CPython, fixed here to declaration order). -/
def knownFieldsList : List String :=
  ["text", "think_output", "image_info", "timer", "scheduled_events", "leap_events"]

/-- Substring containment (`needle in hay`). -/
def listContainsSub (needle : List Char) : List Char → Bool
  | [] => needle.isEmpty
  | c :: rest => needle.isPrefixOf (c :: rest) || listContainsSub needle rest

def strContains (hay needle : String) : Bool :=
  listContainsSub needle.data hay.data

/-- `_normalize_field_key`: exact match, else the first known field name
contained in the key, else the key unchanged. -/
def normalize_field_key (key : String) : String :=
  if knownFieldsList.contains key then key
  else
    match knownFieldsList.find? (fun f => strContains key f) with
    | some f => f
    | none => key

/-- `_normalize_dict_keys`. -/
def normalize_dict_keys (data : List (String × JVal)) : List (String × JVal) :=
  data.foldl (fun acc p => dictSet acc (normalize_field_key p.1) p.2) []

/-- `extract_structured_output` restricted to dict-valued `output`
payloads (the JSON-string format is outside the model). -/
def extract_structured_output (input : JVal) : Option (List (String × JVal)) :=
  match input with
  | .jdict fields =>
    match jget fields "output" with
    | some (.jdict out) => some (normalize_dict_keys out)
    | _ => none
  | _ => none

/-- Schema types: `str`, `list`, and the `(int, float)` tuple. -/
inductive FType where
  | tStr : FType
  | tList : FType
  | tNum : FType
deriving DecidableEq, Repr

/-- `FIELD_DEFINITIONS`: (name, type, required). -/
def lookupFieldDefn : String → Option (FType × Bool)
  | "text" => some (.tStr, true)
  | "think_output" => some (.tStr, true)
  | "image_info" => some (.tList, false)
  | "timer" => some (.tNum, false)
  | "scheduled_events" => some (.tStr, false)
  | "leap_events" => some (.tStr, false)
  | _ => none

/-- `EMPTY_VALUES` (with the `.get(field_name, "")` fallback). -/
def emptyValueOf : String → JVal
  | "text" => .jstr ""
  | "think_output" => .jstr ""
  | "image_info" => .jlist []
  | "timer" => .jnull
  | "scheduled_events" => .jstr ""
  | "leap_events" => .jstr ""
  | _ => .jstr ""

/-- `isinstance` against a schema type (`bool` counts as `int`). -/
def pyIsinstance (v : JVal) : FType → Bool
  | .tStr => match v with | .jstr _ => true | _ => false
  | .tList => match v with | .jlist _ => true | _ => false
  | .tNum => match v with | .jint _ => true | .jbool _ => true | _ => false

/-- `_validate_type` on a non-None value: `none` when valid, else the
error message. -/
def validate_type_msg (v : JVal) (ft : FType) : Option String :=
  if pyIsinstance v ft then none
  else some (match ft with
    | .tNum => "期望类型为 int, float 之一, 实际为 " ++ typeName v
    | .tStr => "期望类型为 str, 实际为 " ++ typeName v
    | .tList => "期望类型为 list, 实际为 " ++ typeName v)

/-- Numeric value of a Python number (`bool` is 0/1). -/
def numValOf : JVal → Int
  | .jint n => n
  | .jbool b => if b then 1 else 0
  | _ => 0

/-- `_validate_timer_value` on a non-None value. -/
def validate_timer_msg (v : JVal) : Option String :=
  if !pyIsinstance v .tNum then
    some ("timer必须是数字类型, 实际为 " ++ typeName v)
  else if numValOf v < 0 then
    some ("timer必须为非负数, 实际为 " ++ toString (numValOf v))
  else none

/-- First non-string item of a list, with its index. -/
def firstNonStr : Nat → List JVal → Option (Nat × JVal)
  | _, [] => none
  | i, x :: xs =>
    match x with
    | .jstr _ => firstNonStr (i + 1) xs
    | v => some (i, v)

/-- `_validate_image_info` on a non-None value. -/
def validate_image_info_msg (v : JVal) : Option String :=
  match v with
  | .jlist xs =>
    match firstNonStr 0 xs with
    | none => none
    | some p =>
      some ("image_info[" ++ toString p.1 ++ "]必须是字符串类型, 实际为 " ++
        typeName p.2)
  | _ => some ("image_info必须是数组类型, 实际为 " ++ typeName v)

structure VError where
  field : String
  message : String
  value : JVal

structure VWarn where
  field : String
  message : String
deriving DecidableEq, Repr

/-- `ValidationResult`: the flag set by `add_error` plus the two lists. -/
structure ValidationState where
  is_valid : Bool
  errors : List VError
  warnings : List VWarn

def addError (st : ValidationState) (f msg : String) (v : JVal) :
    ValidationState :=
  ⟨false, st.errors ++ [⟨f, msg, v⟩], st.warnings⟩

def addWarning (st : ValidationState) (f msg : String) : ValidationState :=
  ⟨st.is_valid, st.errors, st.warnings ++ [⟨f, msg⟩]⟩

/-- `process_structured_output.validate_field`: returns the processed value
and the accumulated state.  Degrades a bad field to its schema-appropriate
empty value instead of failing. -/
def validate_field (field_name : String) (value : Option JVal)
    (st : ValidationState) : JVal × ValidationState :=
  match lookupFieldDefn field_name with
  | none =>
    (value.getD .jnull,
      addWarning st field_name ("未知字段 \x27" ++ field_name ++ "\x27"))
  | some defn =>
    match value with
    | none =>
      if defn.2 then
        (emptyValueOf field_name,
          addError st field_name ("必填字段 \x27" ++ field_name ++ "\x27 缺失") .jnull)
      else (emptyValueOf field_name, st)
    | some v =>
      if field_name == "timer" then
        match validate_timer_msg v with
        | some msg => (emptyValueOf field_name, addError st field_name msg v)
        | none =>
          match validate_type_msg v defn.1 with
          | some msg => (emptyValueOf field_name, addError st field_name msg v)
          | none => (v, st)
      else if field_name == "image_info" then
        match validate_image_info_msg v with
        | some msg => (emptyValueOf field_name, addError st field_name msg v)
        | none =>
          match validate_type_msg v defn.1 with
          | some msg => (emptyValueOf field_name, addError st field_name msg v)
          | none => (v, st)
      else
        match validate_type_msg v defn.1 with
        | some msg => (emptyValueOf field_name, addError st field_name msg v)
        | none => (v, st)

/-- One step of the trailing unknown-key loop of
`process_structured_output.main`: keys that are not schema fields get a
warning, known keys pass through. -/
def unknownKeyWarn (st : ValidationState) (p : String × JVal) : ValidationState :=
  if lookupFieldDefn p.1 == none then
    addWarning st p.1 ("未知字段 \x27" ++ p.1 ++ "\x27")
  else st

/-- The pristine validation state. -/
def initValidation : ValidationState := ⟨true, [], []⟩

/-- The errors one field contributes (specification-side shorthand). -/
def fieldErrors (f : String) (v : Option JVal) : List VError :=
  (validate_field f v initValidation).2.errors

/-- The warnings one field contributes. -/
def fieldWarnings (f : String) (v : Option JVal) : List VWarn :=
  (validate_field f v initValidation).2.warnings

/-- Whether one field validates cleanly. -/
def fieldValid (f : String) (v : Option JVal) : Bool :=
  (validate_field f v initValidation).2.is_valid

/-- The processed value of one field. -/
def fieldValue (f : String) (v : Option JVal) : JVal :=
  (validate_field f v initValidation).1

/-- The flat record `process_structured_output.main` returns. -/
structure ProcessedOutput where
  text : JVal
  think_output : JVal
  image_info : JVal
  timer : JVal
  scheduled_events : JVal
  leap_events : JVal
  is_valid : Bool
  validation_errors : List VError
  validation_warnings : List VWarn

/-- Field selector by schema name (for stating per-field properties). -/
def projOut (r : ProcessedOutput) : String → JVal
  | "text" => r.text
  | "think_output" => r.think_output
  | "image_info" => r.image_info
  | "timer" => r.timer
  | "scheduled_events" => r.scheduled_events
  | "leap_events" => r.leap_events
  | _ => .jnull

/-- `process_structured_output.main`: extract, validate the six schema
fields in declaration order, then warn about remaining unknown keys.  The
source wraps the body in a `try/except`; the model is total, so the
exception arm is unreachable and the function never throws. -/
def process_output_main (input : JVal) : ProcessedOutput :=
  match extract_structured_output input with
  | some output =>
    let st0 : ValidationState := ⟨true, [], []⟩
    let r1 := validate_field "text" (jget output "text") st0
    let r2 := validate_field "think_output" (jget output "think_output") r1.2
    let r3 := validate_field "image_info" (jget output "image_info") r2.2
    let r4 := validate_field "timer" (jget output "timer") r3.2
    let r5 := validate_field "scheduled_events" (jget output "scheduled_events") r4.2
    let r6 := validate_field "leap_events" (jget output "leap_events") r5.2
    let stW := output.foldl unknownKeyWarn r6.2
    ⟨r1.1, r2.1, r3.1, r4.1, r5.1, r6.1, stW.is_valid, stW.errors, stW.warnings⟩
  | none =>
    let st := addError ⟨true, [], []⟩ "output" "输入格式错误,无法找到 output 字段" .jnull
    ⟨.jstr "", .jstr "", .jlist [], .jnull, .jstr "", .jstr "",
      st.is_valid, st.errors, st.warnings⟩

/-! ## Sample data used by concrete instances -/

def sampleTime (n : Int) : Timestamp := ⟨n, 2024, 1, 1, 0, 0, 0⟩

/-- A populated sibling-group document. -/
def sampleSourceDoc : UserDoc :=
  { bot_id := "b", group_id := "g1", user_id := "u"
    favor_value := 7, last_favor_change := 2
    persona_attributes := ⟨"bi", "", "", "", "", "", ""⟩
    block_stats := ⟨true, 1, sampleTime 5⟩
    daily_usage_count := 3
    total_usage := ⟨1, 2, 3, 4⟩
    long_term_memory := [.strE "m"]
    history_entries := [⟨"n", "q", "r", sampleTime 1⟩]
    history_stats_total_histories := 1
    created_at := sampleTime 0, updated_at := sampleTime 4 }

/-- A document whose conversation log is empty. -/
def emptyHistoryDoc : UserDoc :=
  { sampleSourceDoc with group_id := "g", history_entries := [] }

/-- Workflow arguments with every feature disabled except an input-length
limit of 1. -/
def sampleHaltArgs : MainArgs :=
  { bot_id := "b", group_id := "g", user_id := "u", user_query := "ab"
    main_prompt := "M"
    favor_cross_group := "disable", persona_cross_group := "disable"
    blacklist_cross_group := "disable", usage_limit_cross_group := "disable"
    blacklist_system := "disable", is_user_admin := "false"
    blacklist_restrict_admin_users := "disable"
    warn_lifespan := "0", block_lifespan := "0", timestampMicros := 0
    max_input_size := "1", overinput_output := .noneV
    usage_limit_system := "disable", usage_restrict_admin_users := "disable"
    usage_limit := "0", year := "1970", month := "01", day := "01"
    overusage_output := .noneV
    favor_system := "disable", favor_prompts := none, favor_split_points := none
    persona_system := "disable", context_system := "disable"
    context_pool_size := "0", memory_system := "disable"
    memory_retrieval_number := "5" }

/-! # Theorems -/

/-! ## Supporting lemmas -/

theorem cleanSplitPoints_chain (p : Int) (xs : List Int)
    (h : List.Chain (· < ·) p xs) : cleanSplitPoints (some p) xs = xs := by
  induction xs generalizing p with
  | nil => rfl
  | cons x rest ih =>
    rcases List.chain_cons.mp h with ⟨hpx, hrest⟩
    simp [cleanSplitPoints, hpx, ih x hrest]

theorem cleanSplitPoints_chain' (xs : List Int)
    (h : List.Chain' (· < ·) xs) : cleanSplitPoints none xs = xs := by
  cases xs with
  | nil => rfl
  | cons x rest =>
    simp [cleanSplitPoints, cleanSplitPoints_chain x rest h]

theorem resizePrompts_length (ps : List String) (n : Nat) :
    (resizePrompts ps n).length = n := by
  unfold resizePrompts
  split
  · simp; omega
  · split
    · simp; omega
    · omega

theorem pickStagePrompt_eq (favor : Int) (splits : List Int) (ps : List String)
    (hlen : ps.length = splits.length + 1) :
    pickStagePrompt favor splits ps =
      ps.getD ((splits.takeWhile (fun s => decide (s ≤ favor))).length) "" := by
  induction splits generalizing ps with
  | nil =>
    match ps, hlen with
    | [p], _ => rfl
  | cons s ss ih =>
    match ps, hlen with
    | p :: ps', hlen =>
      by_cases hf : favor < s
      · have : ¬ s ≤ favor := by omega
        simp [pickStagePrompt, hf, List.takeWhile, this]
      · have hs : s ≤ favor := by omega
        have hlen' : ps'.length = ss.length + 1 := by
          simpa using hlen
        simp [pickStagePrompt, hf, List.takeWhile, hs, ih ps' hlen']

/-! ## C5 — Favor stage selection -/

/-- C5: for a strictly ascending split-point list and a non-empty prompt
list, `generate_favor_prompt` resizes the prompts to exactly
`len(split_points) + 1` entries (truncating or repeating the final entry)
and selects the entry at the index of the first split point strictly
greater than `favor_value` — the count of leading split points `≤`
`favor_value` — falling back to the last entry when no split point exceeds
it. -/
theorem favor_stage_selection (prompts : List String) (split_points : List Int)
    (favor_value : Int) (hasc : List.Chain' (· < ·) split_points)
    (hne : prompts ≠ []) :
    generate_favor_prompt prompts split_points favor_value =
      (resizePrompts prompts (split_points.length + 1)).getD
        ((split_points.takeWhile (fun s => decide (s ≤ favor_value))).length) "" := by
  unfold generate_favor_prompt
  rw [cleanSplitPoints_chain' split_points hasc]
  have hne' : prompts.isEmpty = false := by
    simpa [List.isEmpty_iff] using hne
  rw [hne']
  simp only []
  exact pickStagePrompt_eq favor_value split_points _
    (resizePrompts_length prompts (split_points.length + 1))

/-- C5 witness: split points `[0, 10]`, prompts `["low","mid","high"]` and
favor value exactly `0` select the middle prompt. -/
theorem favor_stage_selection_witness :
    generate_favor_prompt ["low", "mid", "high"] [0, 10] 0 = "mid" := by
  have h := favor_stage_selection ["low", "mid", "high"] [0, 10] 0
    (by simp [List.chain'_cons]) (by decide)
  rw [h]
  decide

/-! ## C6 — Input-length check -/

/-- C6 counterexample: with `max_input_size = "-1"` the code halts
(`input_length < max_length or max_length == 0` is false) although the
claimed condition `length ≥ max_length ∧ max_length > 0` does not hold,
since the parsed `max_length` is negative, not positive. -/
theorem input_length_check_counterexample :
    (step_2_input_length_check "" "-1" .noneV 0).continue_to_step_3 = false ∧
    ¬ ((((("" : String).length) : Int) ≥ safe_int_convert "-1" 0) ∧
        safe_int_convert "-1" 0 > 0) := by
  decide

/-- C6 (amended): the input-length check halts with stop reason
`input_exceeds_max_length` iff `length(user_query) ≥ max_length` and
`max_length ≠ 0` (0 still means unlimited; all other values, including
negative ones, are enforced). -/
theorem input_length_check_halts_iff (user_query max_input_size : String)
    (pool : MessagePool) (pick : Nat) :
    (((step_2_input_length_check user_query max_input_size pool pick).continue_to_step_3
        = false) ↔
      ((user_query.length : Int) ≥ safe_int_convert max_input_size 0 ∧
        safe_int_convert max_input_size 0 ≠ 0)) ∧
    ((step_2_input_length_check user_query max_input_size pool pick).continue_to_step_3
        = false →
      (step_2_input_length_check user_query max_input_size pool pick).stop_reason
        = some "input_exceeds_max_length") := by
  have hb : ((decide ((user_query.length : Int) < safe_int_convert max_input_size 0) ||
      (safe_int_convert max_input_size 0 == 0)) = true) ↔
      (((user_query.length : Int) < safe_int_convert max_input_size 0) ∨
        safe_int_convert max_input_size 0 = 0) := by
    simp
  by_cases hc : ((user_query.length : Int) < safe_int_convert max_input_size 0) ∨
      safe_int_convert max_input_size 0 = 0
  · have hstep : step_2_input_length_check user_query max_input_size pool pick =
        ⟨true, none, " ", user_query.length, safe_int_convert max_input_size 0⟩ := by
      unfold step_2_input_length_check
      rw [if_pos (hb.mpr hc)]
    rw [hstep]
    exact ⟨⟨fun h => absurd h (by simp), fun h => absurd hc (by omega)⟩,
      fun h => absurd h (by simp)⟩
  · have hstep : step_2_input_length_check user_query max_input_size pool pick =
        ⟨false, some "input_exceeds_max_length",
          if pool.truthy then random_message pool pick else "这么长谁看的过来啦……",
          user_query.length, safe_int_convert max_input_size 0⟩ := by
      unfold step_2_input_length_check
      rw [if_neg (fun hcontra => hc (hb.mp hcontra))]
    rw [hstep]
    exact ⟨⟨fun _ => by omega, fun _ => rfl⟩, fun _ => rfl⟩

/-- C6 witness: an over-long query under a positive limit halts with the
documented stop reason. -/
theorem input_length_check_halts_iff_witness :
    (step_2_input_length_check "ab" "1" .noneV 0).stop_reason
      = some "input_exceeds_max_length" := by
  have h := (input_length_check_halts_iff "ab" "1" .noneV 0).2 (by decide)
  exact h

/-! ## C2 — Blacklist gate -/

/-- C2: on a blocked document, elapsed time `≥ block_lifespan` flips the
status to allowed and writes it back, and the request proceeds; otherwise
the request is rejected with a message reporting the remaining seconds
`block_lifespan − elapsed` truncated to an integer, and nothing is written.
On an allowed document with `block_count > 0`, the count is reset to 0 and
written when elapsed `≥ warn_lifespan`, left untouched otherwise, and the
request is always allowed. -/
theorem blacklist_check_behavior (stats : BlockStats)
    (warn_lifespan block_lifespan timestampMicros : Int) :
    (stats.block_status = false →
      ((timestampMicros - stats.last_operate_time.epochMicros ≥
          block_lifespan * SECOND_MICROS →
        check_blacklist_core stats warn_lifespan block_lifespan timestampMicros =
          ⟨true, " ", false, { stats with block_status := true }, true⟩) ∧
       (timestampMicros - stats.last_operate_time.epochMicros <
          block_lifespan * SECOND_MICROS →
        check_blacklist_core stats warn_lifespan block_lifespan timestampMicros =
          ⟨false,
            "不想理你，" ++
              toString (truncSecondsOfMicros (block_lifespan * SECOND_MICROS -
                (timestampMicros - stats.last_operate_time.epochMicros))) ++
              "秒后再来吧",
            false, stats, false⟩))) ∧
    (stats.block_status = true → 0 < stats.block_count →
      ((timestampMicros - stats.last_operate_time.epochMicros ≥
          warn_lifespan * SECOND_MICROS →
        check_blacklist_core stats warn_lifespan block_lifespan timestampMicros =
          ⟨true, " ", true, { stats with block_count := 0 }, true⟩) ∧
       (timestampMicros - stats.last_operate_time.epochMicros <
          warn_lifespan * SECOND_MICROS →
        check_blacklist_core stats warn_lifespan block_lifespan timestampMicros =
          ⟨true, " ", true, stats, false⟩))) := by
  constructor
  · intro hblocked
    constructor
    · intro helapsed
      unfold check_blacklist_core
      rw [hblocked]
      simp only [Bool.false_eq_true, if_false, if_pos helapsed]
    · intro helapsed
      unfold check_blacklist_core
      rw [hblocked]
      simp only [Bool.false_eq_true, if_false,
        if_neg (by omega : ¬ timestampMicros - stats.last_operate_time.epochMicros ≥
          block_lifespan * SECOND_MICROS)]
  · intro hallowed hcount
    have hne : (stats.block_count == 0) = false := by
      simp only [beq_eq_false_iff_ne, ne_eq]
      omega
    constructor
    · intro helapsed
      unfold check_blacklist_core
      rw [hallowed]
      simp only [if_true, hne, Bool.false_eq_true, if_false, if_pos helapsed]
    · intro helapsed
      unfold check_blacklist_core
      rw [hallowed]
      simp only [if_true, hne, Bool.false_eq_true, if_false,
        if_neg (by omega : ¬ timestampMicros - stats.last_operate_time.epochMicros ≥
          warn_lifespan * SECOND_MICROS)]

/-- C2 witness: blocked with 30.5 s elapsed of a 60 s lifespan is rejected
and the message reports 29 remaining seconds (60 − 30.5 truncated). -/
theorem blacklist_check_behavior_witness :
    check_blacklist_core ⟨false, 0, sampleTime 0⟩ 10 60 30500000 =
      ⟨false, "不想理你，29秒后再来吧", false, ⟨false, 0, sampleTime 0⟩, false⟩ := by
  have h := ((blacklist_check_behavior ⟨false, 0, sampleTime 0⟩ 10 60 30500000).1
    rfl).2 (by decide)
  rw [h]
  decide

/-! ## C3 — Usage-limit gate -/

theorem random_message_mem (xs : List String) (pick : Nat) (hne : xs ≠ []) :
    random_message (.listV xs) pick ∈ xs := by
  have hlen : 0 < xs.length := List.length_pos.mpr hne
  have hempty : xs.isEmpty = false := by
    simpa [List.isEmpty_iff] using hne
  show (if xs.isEmpty = true then "" else xs.getD (pick % xs.length) "") ∈ xs
  rw [hempty]
  simp only [Bool.false_eq_true, if_false]
  rw [List.getD_eq_getElem xs "" (Nat.mod_lt pick hlen)]
  exact List.getElem_mem _

/-- C3: with the caller-supplied date equal to the date extracted from
`updated_at`, a count below the limit increments and allows, a count equal
to the limit also increments and allows (the last permitted request), and a
count above the limit rejects with a message drawn from the over-usage
pool without writing the count.  A later caller date resets the count to 1
and allows regardless of the prior count; an earlier date rejects with the
date-anomaly message and writes nothing. -/
theorem usage_limit_check_behavior (current_usage : Int) (updated_at : Timestamp)
    (usage_limit : Int) (year month day : String) (pool : MessagePool)
    (pick : Nat) :
    (safe_int_convert (format_date year month day) 19700101 =
        dateValOfTimestamp updated_at →
      ((current_usage < usage_limit →
        check_usage_limit_core current_usage updated_at usage_limit year month day
            pool pick =
          ⟨true, " ", current_usage + 1, format_date year month day, true⟩) ∧
       (current_usage = usage_limit →
        check_usage_limit_core current_usage updated_at usage_limit year month day
            pool pick =
          ⟨true, " ", current_usage + 1, format_date year month day, true⟩) ∧
       (current_usage > usage_limit →
        check_usage_limit_core current_usage updated_at usage_limit year month day
            pool pick =
          ⟨false,
            (if pool.truthy then random_message pool pick else "今日用量已达上限"),
            current_usage, format_date year month day, false⟩ ∧
        (∀ xs, pool = .listV xs → xs ≠ [] →
          (check_usage_limit_core current_usage updated_at usage_limit year month
              day pool pick).stop_message ∈ xs)))) ∧
    (safe_int_convert (format_date year month day) 19700101 >
        dateValOfTimestamp updated_at →
      check_usage_limit_core current_usage updated_at usage_limit year month day
          pool pick =
        ⟨true, " ", 1, format_date year month day, true⟩) ∧
    (safe_int_convert (format_date year month day) 19700101 <
        dateValOfTimestamp updated_at →
      check_usage_limit_core current_usage updated_at usage_limit year month day
          pool pick =
        ⟨false, "日期异常，请稍后重试", current_usage, format_date year month day,
          false⟩) := by
  refine ⟨?_, ?_, ?_⟩
  · intro heq
    have hgt : ¬ (safe_int_convert (format_date year month day) 19700101 >
        dateValOfTimestamp updated_at) := by omega
    have hbeq : (safe_int_convert (format_date year month day) 19700101 ==
        dateValOfTimestamp updated_at) = true := by
      simpa using heq
    refine ⟨?_, ?_, ?_⟩
    · intro hlt
      unfold check_usage_limit_core
      rw [if_neg hgt, if_pos hbeq, if_pos hlt]
    · intro heqc
      unfold check_usage_limit_core
      rw [if_neg hgt, if_pos hbeq, if_neg (by omega : ¬ current_usage < usage_limit),
        if_pos (by simpa using heqc)]
    · intro hover
      have hrec : check_usage_limit_core current_usage updated_at usage_limit year
          month day pool pick =
          ⟨false,
            (if pool.truthy then random_message pool pick else "今日用量已达上限"),
            current_usage, format_date year month day, false⟩ := by
        unfold check_usage_limit_core
        rw [if_neg hgt, if_pos hbeq, if_neg (by omega : ¬ current_usage < usage_limit),
          if_neg (by simp; omega : ¬ (current_usage == usage_limit) = true)]
      refine ⟨hrec, ?_⟩
      intro xs hxs hne
      rw [hrec, hxs]
      have htruthy : (MessagePool.listV xs).truthy = true := by
        simpa [MessagePool.truthy, List.isEmpty_iff] using hne
      simp only [htruthy, if_true]
      exact random_message_mem xs pick hne
  · intro hgt
    unfold check_usage_limit_core
    rw [if_pos hgt]
  · intro hlt
    have hgt : ¬ (safe_int_convert (format_date year month day) 19700101 >
        dateValOfTimestamp updated_at) := by omega
    have hbne : (safe_int_convert (format_date year month day) 19700101 ==
        dateValOfTimestamp updated_at) = false := by
      simp only [beq_eq_false_iff_ne, ne_eq]
      omega
    unfold check_usage_limit_core
    rw [if_neg hgt, hbne]
    simp only [Bool.false_eq_true, if_false]

/-- C3 witness: limit 3, same day, prior count 3 is the boundary — the
request is still allowed and the count is written as 4; prior count 4 is
rejected with a message from the pool. -/
theorem usage_limit_check_behavior_witness :
    check_usage_limit_core 3 ⟨0, 2024, 1, 2, 0, 0, 0⟩ 3 "2024" "1" "2" .noneV 0 =
      ⟨true, " ", 4, "20240102", true⟩ ∧
    (check_usage_limit_core 4 ⟨0, 2024, 1, 2, 0, 0, 0⟩ 3 "2024" "1" "2"
        (.listV ["a", "b"]) 1).stop_message ∈ ["a", "b"] := by
  constructor
  · have h := (((usage_limit_check_behavior 3 ⟨0, 2024, 1, 2, 0, 0, 0⟩ 3 "2024" "1"
      "2" .noneV 0).1 (by decide)).2.1) (by decide)
    rw [h]
    decide
  · exact ((((usage_limit_check_behavior 4 ⟨0, 2024, 1, 2, 0, 0, 0⟩ 3 "2024" "1"
      "2" (.listV ["a", "b"]) 1).1 (by decide)).2.2 (by decide)).2 ["a", "b"] rfl
      (by decide))

/-! ## C7 — Memory retrieval (index misalignment) -/

/-- C7: evaluating the embedded `get_memory_prompt` at a memory array whose
first entry has an empty `user_input` and whose second entry exactly
matches the query.  The similarity 1 is computed for the second entry's
`user_input`, but its position in the filtered `memory_inputs` list (0) is
used to index `long_term_memory`, so the first entry — never ranked at
all — has its `hit_count` incremented and its description appended, while
the matching entry is left untouched.  This contradicts the claim that
exactly the selected (similarity-ranked) entries are incremented. -/
theorem memory_retrieval_misaligned_hit :
    get_memory_prompt_core [.dictE "" "d0" 0, .dictE "hi" "d1" 0] "hi" "P" 1 =
      ⟨[.full "" "d0" 1], [.dictE "" "d0" 1, .dictE "hi" "d1" 0], true,
        "P\n\n相关记忆：\nd0\n"⟩ := by
  decide

/-! ## C8 — Admin clear on context with no field -/

/-- C8 counterexample: a document matched by the clear whose
`history_entries` list is empty is skipped entirely — in particular its
`updated_at` is not stamped, contradicting "updated_at is always stamped
on every document matched by a clear". -/
theorem context_clear_stamp_counterexample :
    (clear_context_trim [emptyHistoryDoc] 2 (sampleTime 99)).1 =
      [emptyHistoryDoc] ∧
    emptyHistoryDoc.updated_at ≠ sampleTime 99 := by
  decide

/-- C8 (amended): each matched document loses exactly its most recent
`context_pool_size` entries (the earlier prefix is kept; a non-positive
pool size changes nothing), every other field except `updated_at` is
unchanged, and `updated_at` is stamped exactly on the documents whose
`history_entries` actually shrank (non-empty log and positive pool size);
unchanged documents are not written at all. -/
theorem context_clear_trim_behavior (docs : List UserDoc) (pool_size : Int)
    (now : Timestamp) :
    List.Forall₂ (fun d d₂ =>
      d₂.history_entries =
        (if 0 < pool_size then
          d.history_entries.take (d.history_entries.length - pool_size.toNat)
         else d.history_entries) ∧
      d₂.updated_at =
        (if 0 < pool_size ∧ d.history_entries ≠ [] then now else d.updated_at) ∧
      d₂.bot_id = d.bot_id ∧ d₂.group_id = d.group_id ∧ d₂.user_id = d.user_id ∧
      d₂.favor_value = d.favor_value ∧
      d₂.last_favor_change = d.last_favor_change ∧
      d₂.persona_attributes = d.persona_attributes ∧
      d₂.block_stats = d.block_stats ∧
      d₂.daily_usage_count = d.daily_usage_count ∧
      d₂.total_usage = d.total_usage ∧
      d₂.long_term_memory = d.long_term_memory ∧
      d₂.history_stats_total_histories = d.history_stats_total_histories ∧
      d₂.created_at = d.created_at)
      docs (clear_context_trim docs pool_size now).1 := by
  induction docs with
  | nil => exact List.Forall₂.nil
  | cons doc rest ih =>
    unfold clear_context_trim
    by_cases hemp : doc.history_entries.isEmpty = true
    · rw [if_pos hemp]
      have hnil : doc.history_entries = [] := List.isEmpty_iff.mp hemp
      refine List.Forall₂.cons ?_ ih
      refine ⟨?_, ?_, rfl, rfl, rfl, rfl, rfl, rfl, rfl, rfl, rfl, rfl, rfl, rfl⟩
      · rw [hnil]
        simp
      · rw [hnil]
        simp
    · rw [if_neg hemp]
      simp only []
      have hne : doc.history_entries ≠ [] := by
        simpa [List.isEmpty_iff] using hemp
      have hpos : 0 < doc.history_entries.length := List.length_pos.mpr hne
      by_cases hps : 0 < pool_size
      · have hkeep : (if 0 < pool_size then
            doc.history_entries.take (doc.history_entries.length - pool_size.toNat)
          else doc.history_entries) =
            doc.history_entries.take (doc.history_entries.length - pool_size.toNat) :=
          if_pos hps
        have hlen : (doc.history_entries.take
            (doc.history_entries.length - pool_size.toNat)).length ≠
            doc.history_entries.length := by
          rw [List.length_take]
          have : 0 < pool_size.toNat := by omega
          omega
        have hlenb : ((if 0 < pool_size then
            doc.history_entries.take (doc.history_entries.length - pool_size.toNat)
          else doc.history_entries).length != doc.history_entries.length) = true := by
          rw [hkeep]
          simpa using hlen
        rw [hlenb]
        simp only [if_true]
        refine List.Forall₂.cons ?_ ih
        refine ⟨?_, ?_, rfl, rfl, rfl, rfl, rfl, rfl, rfl, rfl, rfl, rfl, rfl, rfl⟩
        · simp [hps, hkeep]
        · simp [hps, hne]
      · have hkeep : (if 0 < pool_size then
            doc.history_entries.take (doc.history_entries.length - pool_size.toNat)
          else doc.history_entries) = doc.history_entries := if_neg hps
        have hlenb : ((if 0 < pool_size then
            doc.history_entries.take (doc.history_entries.length - pool_size.toNat)
          else doc.history_entries).length != doc.history_entries.length) = false := by
          rw [hkeep]
          simp
        rw [hlenb]
        simp only [Bool.false_eq_true, if_false]
        refine List.Forall₂.cons ?_ ih
        refine ⟨?_, ?_, rfl, rfl, rfl, rfl, rfl, rfl, rfl, rfl, rfl, rfl, rfl, rfl⟩
        · simp [hps]
        · simp [hps]

/-! ## C10 — Command interpreter permission guard -/

/-- C10: for any `is_user_admin` value other than exactly "true" the
interpreter returns the no-permission error response — `modified_count` 0
and every echo field still at its initial value, in particular the
`action`/`type_key`/`field` fields that parsing would have filled are
empty — and the outcome is `done`, i.e. the dispatch phase (the only code
that opens the document store) is never reached, so no document is read or
written and the command string is never parsed. -/
theorem command_no_permission (user_query bot_id group_id is_user_admin : String)
    (context_pool_size : Int) (h : is_user_admin ≠ "true") :
    execute_command_checked user_query bot_id group_id is_user_admin
        context_pool_size =
      .done { initialCommandResponse with result := "无管理员权限，无法执行此操作" } := by
  unfold execute_command_checked
  rw [if_pos (by simpa using h)]

/-- C10 witness: a read-only `get` command from a non-admin caller. -/
theorem command_no_permission_witness :
    execute_command_checked "/Roza.get.favor all" "b" "g" "false" 5 =
      .done { initialCommandResponse with result := "无管理员权限，无法执行此操作" } :=
  command_no_permission "/Roza.get.favor all" "b" "g" "false" 5 (by decide)

/-! ## C1 — Document inheritance via the 9999 template -/

/-- C1: when no document exists at the requested key, no template exists at
`(bot_id, "9999", user_id)`, but a sibling-group document does, a template
document copying `favor_value`, `last_favor_change`, `persona_attributes`,
`block_stats`, `daily_usage_count` and `long_term_memory` from the source —
with `total_usage` zeroed, `history_entries` empty and
`history_stats.total_histories` 0 — is persisted unconditionally (no
cross-group flag is assumed), and the returned group-local document takes
each cross-group-eligible field from the template exactly when the
corresponding flag is "enable" (hard default otherwise), while
`total_usage`, `long_term_memory`, `history_entries` and `history_stats`
always start at their defaults. -/
theorem document_inheritance (cfg : CrossGroupConfig) (store : Store)
    (b g u : String) (now : Timestamp) (src : UserDoc)
    (h1 : find_one store b g u = none)
    (h2 : find_one store b TEMPLATE_GROUP_ID u = none)
    (h3 : other_group_doc? store b g u = some src) :
    find_one (get_document cfg store b g u now).2 b TEMPLATE_GROUP_ID u =
      some { bot_id := b, group_id := TEMPLATE_GROUP_ID, user_id := u,
             favor_value := src.favor_value,
             last_favor_change := src.last_favor_change,
             persona_attributes := src.persona_attributes,
             block_stats := src.block_stats,
             daily_usage_count := src.daily_usage_count,
             total_usage := default_total_usage,
             long_term_memory := src.long_term_memory,
             history_entries := [],
             history_stats_total_histories := 0,
             created_at := now, updated_at := now } ∧
    (get_document cfg store b g u now).1 =
      { bot_id := b, group_id := g, user_id := u,
        favor_value :=
          if cfg.favor_cross_group = "enable" then src.favor_value else 0,
        last_favor_change :=
          if cfg.favor_cross_group = "enable" then src.last_favor_change else 0,
        persona_attributes :=
          if cfg.persona_cross_group = "enable" then src.persona_attributes
          else default_persona_attributes,
        block_stats :=
          if cfg.blacklist_cross_group = "enable" then src.block_stats
          else default_block_stats now,
        daily_usage_count :=
          if cfg.usage_limit_cross_group = "enable" then src.daily_usage_count
          else 0,
        total_usage := default_total_usage,
        long_term_memory := [], history_entries := [],
        history_stats_total_histories := 0,
        created_at := now, updated_at := now } := by
  have hdoc : get_document cfg store b g u now =
      (build_document_from_template cfg b g u
        (some (create_template_from_source b u src now)) now,
       (store ++ [create_template_from_source b u src now]) ++
        [build_document_from_template cfg b g u
          (some (create_template_from_source b u src now)) now]) := by
    unfold get_document
    rw [h1, h2, h3]
  rw [hdoc]
  constructor
  · show find_one ((store ++ [create_template_from_source b u src now]) ++ _)
      b TEMPLATE_GROUP_ID u = _
    unfold find_one at h2 ⊢
    rw [List.find?_append, List.find?_append, h2]
    simp only [Option.none_or]
    rw [List.find?_cons_of_pos _ (by
      simp [docKeyMatches, create_template_from_source])]
    rfl
  · unfold build_document_from_template get_inherit_value
    simp only [create_template_from_source]
    by_cases hf : cfg.favor_cross_group = "enable" <;>
      by_cases hp : cfg.persona_cross_group = "enable" <;>
        by_cases hb : cfg.blacklist_cross_group = "enable" <;>
          by_cases hu : cfg.usage_limit_cross_group = "enable" <;>
            simp [hf, hp, hb, hu]

/-- C1 witness: with only the favor flag enabled, a first touch in group
"g2" (source document in "g1" with favor 7) persists the template and
returns a document with favor 7 but default block stats, persona and
daily count. -/
theorem document_inheritance_witness :
    (get_document ⟨"enable", "disable", "disable", "disable"⟩ [sampleSourceDoc]
        "b" "g2" "u" (sampleTime 10)).1.favor_value = 7 ∧
    find_one (get_document ⟨"enable", "disable", "disable", "disable"⟩
        [sampleSourceDoc] "b" "g2" "u" (sampleTime 10)).2 "b" TEMPLATE_GROUP_ID
        "u" =
      some { bot_id := "b", group_id := TEMPLATE_GROUP_ID, user_id := "u",
             favor_value := 7, last_favor_change := 2,
             persona_attributes := ⟨"bi", "", "", "", "", "", ""⟩,
             block_stats := ⟨true, 1, sampleTime 5⟩,
             daily_usage_count := 3, total_usage := default_total_usage,
             long_term_memory := [.strE "m"], history_entries := [],
             history_stats_total_histories := 0,
             created_at := sampleTime 10, updated_at := sampleTime 10 } := by
  have h := document_inheritance ⟨"enable", "disable", "disable", "disable"⟩
    [sampleSourceDoc] "b" "g2" "u" (sampleTime 10) sampleSourceDoc
    (by decide) (by decide) (by decide)
  constructor
  · rw [h.2]
    decide
  · rw [h.1]
    decide

/-! ## C9 — Structured-output validation -/

theorem validate_field_split (f : String) (v : Option JVal) (st : ValidationState) :
    (validate_field f v st).1 = fieldValue f v ∧
    (validate_field f v st).2.errors = st.errors ++ fieldErrors f v ∧
    (validate_field f v st).2.warnings = st.warnings ++ fieldWarnings f v ∧
    (validate_field f v st).2.is_valid = (st.is_valid && fieldValid f v) := by
  unfold fieldValue fieldErrors fieldWarnings fieldValid initValidation
  unfold validate_field
  cases hdef : lookupFieldDefn f with
  | none => simp [addWarning]
  | some defn =>
    cases v with
    | none =>
      by_cases hreq : defn.2 = true
      · simp [hreq, addError]
      · rw [Bool.not_eq_true] at hreq
        simp [hreq, addError]
    | some w =>
      by_cases ht : (f == "timer") = true
      · simp only [ht, if_true]
        cases htm : validate_timer_msg w with
        | some msg => simp [addError]
        | none =>
          cases hty : validate_type_msg w defn.1 with
          | some msg => simp [addError]
          | none => simp
      · rw [Bool.not_eq_true] at ht
        simp only [ht, Bool.false_eq_true, if_false]
        by_cases hi : (f == "image_info") = true
        · simp only [hi, if_true]
          cases him : validate_image_info_msg w with
          | some msg => simp [addError]
          | none =>
            cases hty : validate_type_msg w defn.1 with
            | some msg => simp [addError]
            | none => simp
        · rw [Bool.not_eq_true] at hi
          simp only [hi, Bool.false_eq_true, if_false]
          cases hty : validate_type_msg w defn.1 with
          | some msg => simp [addError]
          | none => simp

theorem fieldErrors_field (f : String) (v : Option JVal) :
    ∀ e ∈ fieldErrors f v, e.field = f := by
  unfold fieldErrors initValidation
  unfold validate_field
  cases hdef : lookupFieldDefn f with
  | none => simp [addWarning]
  | some defn =>
    cases v with
    | none =>
      by_cases hreq : defn.2 = true
      · simp [hreq, addError]
      · rw [Bool.not_eq_true] at hreq
        simp [hreq, addError]
    | some w =>
      by_cases ht : (f == "timer") = true
      · simp only [ht, if_true]
        cases htm : validate_timer_msg w with
        | some msg => simp [addError]
        | none =>
          cases hty : validate_type_msg w defn.1 with
          | some msg => simp [addError]
          | none => simp
      · rw [Bool.not_eq_true] at ht
        simp only [ht, Bool.false_eq_true, if_false]
        by_cases hi : (f == "image_info") = true
        · simp only [hi, if_true]
          cases him : validate_image_info_msg w with
          | some msg => simp [addError]
          | none =>
            cases hty : validate_type_msg w defn.1 with
            | some msg => simp [addError]
            | none => simp
        · rw [Bool.not_eq_true] at hi
          simp only [hi, Bool.false_eq_true, if_false]
          cases hty : validate_type_msg w defn.1 with
          | some msg => simp [addError]
          | none => simp

theorem fieldValid_eq_isEmpty (f : String) (v : Option JVal) :
    fieldValid f v = (fieldErrors f v).isEmpty := by
  unfold fieldValid fieldErrors initValidation
  unfold validate_field
  cases hdef : lookupFieldDefn f with
  | none => simp [addWarning]
  | some defn =>
    cases v with
    | none =>
      by_cases hreq : defn.2 = true
      · simp [hreq, addError]
      · rw [Bool.not_eq_true] at hreq
        simp [hreq, addError]
    | some w =>
      by_cases ht : (f == "timer") = true
      · simp only [ht, if_true]
        cases htm : validate_timer_msg w with
        | some msg => simp [addError]
        | none =>
          cases hty : validate_type_msg w defn.1 with
          | some msg => simp [addError]
          | none => simp
      · rw [Bool.not_eq_true] at ht
        simp only [ht, Bool.false_eq_true, if_false]
        by_cases hi : (f == "image_info") = true
        · simp only [hi, if_true]
          cases him : validate_image_info_msg w with
          | some msg => simp [addError]
          | none =>
            cases hty : validate_type_msg w defn.1 with
            | some msg => simp [addError]
            | none => simp
        · rw [Bool.not_eq_true] at hi
          simp only [hi, Bool.false_eq_true, if_false]
          cases hty : validate_type_msg w defn.1 with
          | some msg => simp [addError]
          | none => simp

theorem fieldValue_of_no_error (f : String) (w : JVal)
    (h : fieldErrors f (some w) = []) : fieldValue f (some w) = w := by
  unfold fieldErrors initValidation at h
  unfold fieldValue initValidation
  unfold validate_field at h ⊢
  cases hdef : lookupFieldDefn f with
  | none => simp
  | some defn =>
    rw [hdef] at h
    by_cases ht : (f == "timer") = true
    · simp only [ht, if_true] at h ⊢
      cases htm : validate_timer_msg w with
      | some msg => rw [htm] at h; simp [addError] at h
      | none =>
        rw [htm] at h
        cases hty : validate_type_msg w defn.1 with
        | some msg => rw [hty] at h; simp [addError] at h
        | none => rfl
    · rw [Bool.not_eq_true] at ht
      simp only [ht, Bool.false_eq_true, if_false] at h ⊢
      by_cases hi : (f == "image_info") = true
      · simp only [hi, if_true] at h ⊢
        cases him : validate_image_info_msg w with
        | some msg => rw [him] at h; simp [addError] at h
        | none =>
          rw [him] at h
          cases hty : validate_type_msg w defn.1 with
          | some msg => rw [hty] at h; simp [addError] at h
          | none => rfl
      · rw [Bool.not_eq_true] at hi
        simp only [hi, Bool.false_eq_true, if_false] at h ⊢
        cases hty : validate_type_msg w defn.1 with
        | some msg => rw [hty] at h; simp [addError] at h
        | none => rfl

theorem unknownKeyWarn_errors (st : ValidationState) (p : String × JVal) :
    (unknownKeyWarn st p).errors = st.errors := by
  unfold unknownKeyWarn
  by_cases h : (lookupFieldDefn p.1 == none) = true
  · simp [h, addWarning]
  · rw [Bool.not_eq_true] at h
    simp [h]

theorem unknownKeyWarn_is_valid (st : ValidationState) (p : String × JVal) :
    (unknownKeyWarn st p).is_valid = st.is_valid := by
  unfold unknownKeyWarn
  by_cases h : (lookupFieldDefn p.1 == none) = true
  · simp [h, addWarning]
  · rw [Bool.not_eq_true] at h
    simp [h]

theorem unknownKeyWarn_warn_mono (st : ValidationState) (p : String × JVal)
    (w : VWarn) (hw : w ∈ st.warnings) : w ∈ (unknownKeyWarn st p).warnings := by
  unfold unknownKeyWarn
  by_cases h : (lookupFieldDefn p.1 == none) = true
  · simp only [h, if_true, addWarning]
    exact List.mem_append_left _ hw
  · rw [Bool.not_eq_true] at h
    simp only [h, Bool.false_eq_true, if_false]
    exact hw

theorem foldl_unknownKeyWarn_errors (out : List (String × JVal))
    (st : ValidationState) :
    (out.foldl unknownKeyWarn st).errors = st.errors := by
  induction out generalizing st with
  | nil => rfl
  | cons p rest ih =>
    rw [List.foldl_cons, ih, unknownKeyWarn_errors]

theorem foldl_unknownKeyWarn_is_valid (out : List (String × JVal))
    (st : ValidationState) :
    (out.foldl unknownKeyWarn st).is_valid = st.is_valid := by
  induction out generalizing st with
  | nil => rfl
  | cons p rest ih =>
    rw [List.foldl_cons, ih, unknownKeyWarn_is_valid]

theorem foldl_unknownKeyWarn_warn_mono (out : List (String × JVal))
    (st : ValidationState) (w : VWarn) (hw : w ∈ st.warnings) :
    w ∈ (out.foldl unknownKeyWarn st).warnings := by
  induction out generalizing st with
  | nil => exact hw
  | cons p rest ih =>
    rw [List.foldl_cons]
    exact ih _ (unknownKeyWarn_warn_mono st p w hw)

theorem foldl_unknownKeyWarn_mem (out : List (String × JVal))
    (st : ValidationState) (p : String × JVal) (hp : p ∈ out)
    (hunk : lookupFieldDefn p.1 = none) :
    (⟨p.1, "未知字段 \x27" ++ p.1 ++ "\x27"⟩ : VWarn) ∈
      (out.foldl unknownKeyWarn st).warnings := by
  induction out generalizing st with
  | nil => cases hp
  | cons q rest ih =>
    rw [List.foldl_cons]
    rcases List.mem_cons.mp hp with hpq | hprest
    · subst hpq
      apply foldl_unknownKeyWarn_warn_mono
      unfold unknownKeyWarn
      rw [if_pos (by simp [hunk])]
      unfold addWarning
      simp
    · exact ih _ hprest

theorem process_output_main_parts (fields out : List (String × JVal))
    (hout : jget fields "output" = some (.jdict out)) :
    (process_output_main (.jdict fields)).text = fieldValue "text" (jget (normalize_dict_keys out) "text") ∧ (process_output_main (.jdict fields)).think_output = fieldValue "think_output" (jget (normalize_dict_keys out) "think_output") ∧ (process_output_main (.jdict fields)).image_info = fieldValue "image_info" (jget (normalize_dict_keys out) "image_info") ∧ (process_output_main (.jdict fields)).timer = fieldValue "timer" (jget (normalize_dict_keys out) "timer") ∧ (process_output_main (.jdict fields)).scheduled_events = fieldValue "scheduled_events" (jget (normalize_dict_keys out) "scheduled_events") ∧ (process_output_main (.jdict fields)).leap_events = fieldValue "leap_events" (jget (normalize_dict_keys out) "leap_events") ∧
    (process_output_main (.jdict fields)).validation_errors = fieldErrors "text" (jget (normalize_dict_keys out) "text") ++ fieldErrors "think_output" (jget (normalize_dict_keys out) "think_output") ++ fieldErrors "image_info" (jget (normalize_dict_keys out) "image_info") ++ fieldErrors "timer" (jget (normalize_dict_keys out) "timer") ++ fieldErrors "scheduled_events" (jget (normalize_dict_keys out) "scheduled_events") ++ fieldErrors "leap_events" (jget (normalize_dict_keys out) "leap_events") ∧
    (process_output_main (.jdict fields)).is_valid = (fieldValid "text" (jget (normalize_dict_keys out) "text") && fieldValid "think_output" (jget (normalize_dict_keys out) "think_output") && fieldValid "image_info" (jget (normalize_dict_keys out) "image_info") && fieldValid "timer" (jget (normalize_dict_keys out) "timer") && fieldValid "scheduled_events" (jget (normalize_dict_keys out) "scheduled_events") && fieldValid "leap_events" (jget (normalize_dict_keys out) "leap_events")) ∧
    (process_output_main (.jdict fields)).validation_warnings = (List.foldl unknownKeyWarn (validate_field "leap_events" (jget (normalize_dict_keys out) "leap_events") (validate_field "scheduled_events" (jget (normalize_dict_keys out) "scheduled_events") (validate_field "timer" (jget (normalize_dict_keys out) "timer") (validate_field "image_info" (jget (normalize_dict_keys out) "image_info") (validate_field "think_output" (jget (normalize_dict_keys out) "think_output") (validate_field "text" (jget (normalize_dict_keys out) "text") initValidation).2).2).2).2).2).2 (normalize_dict_keys out)).warnings := by
  have hex : extract_structured_output (.jdict fields) =
      some (normalize_dict_keys out) := by
    simp only [extract_structured_output]
    rw [hout]
  have hred : process_output_main (.jdict fields) =
      ⟨(validate_field "text" (jget (normalize_dict_keys out) "text") initValidation).1, (validate_field "think_output" (jget (normalize_dict_keys out) "think_output") (validate_field "text" (jget (normalize_dict_keys out) "text") initValidation).2).1, (validate_field "image_info" (jget (normalize_dict_keys out) "image_info") (validate_field "think_output" (jget (normalize_dict_keys out) "think_output") (validate_field "text" (jget (normalize_dict_keys out) "text") initValidation).2).2).1, (validate_field "timer" (jget (normalize_dict_keys out) "timer") (validate_field "image_info" (jget (normalize_dict_keys out) "image_info") (validate_field "think_output" (jget (normalize_dict_keys out) "think_output") (validate_field "text" (jget (normalize_dict_keys out) "text") initValidation).2).2).2).1, (validate_field "scheduled_events" (jget (normalize_dict_keys out) "scheduled_events") (validate_field "timer" (jget (normalize_dict_keys out) "timer") (validate_field "image_info" (jget (normalize_dict_keys out) "image_info") (validate_field "think_output" (jget (normalize_dict_keys out) "think_output") (validate_field "text" (jget (normalize_dict_keys out) "text") initValidation).2).2).2).2).1, (validate_field "leap_events" (jget (normalize_dict_keys out) "leap_events") (validate_field "scheduled_events" (jget (normalize_dict_keys out) "scheduled_events") (validate_field "timer" (jget (normalize_dict_keys out) "timer") (validate_field "image_info" (jget (normalize_dict_keys out) "image_info") (validate_field "think_output" (jget (normalize_dict_keys out) "think_output") (validate_field "text" (jget (normalize_dict_keys out) "text") initValidation).2).2).2).2).2).1, (List.foldl unknownKeyWarn (validate_field "leap_events" (jget (normalize_dict_keys out) "leap_events") (validate_field "scheduled_events" (jget (normalize_dict_keys out) "scheduled_events") (validate_field "timer" (jget (normalize_dict_keys out) "timer") (validate_field "image_info" (jget (normalize_dict_keys out) "image_info") (validate_field "think_output" (jget (normalize_dict_keys out) "think_output") (validate_field "text" (jget (normalize_dict_keys out) "text") initValidation).2).2).2).2).2).2 (normalize_dict_keys out)).is_valid, (List.foldl unknownKeyWarn (validate_field "leap_events" (jget (normalize_dict_keys out) "leap_events") (validate_field "scheduled_events" (jget (normalize_dict_keys out) "scheduled_events") (validate_field "timer" (jget (normalize_dict_keys out) "timer") (validate_field "image_info" (jget (normalize_dict_keys out) "image_info") (validate_field "think_output" (jget (normalize_dict_keys out) "think_output") (validate_field "text" (jget (normalize_dict_keys out) "text") initValidation).2).2).2).2).2).2 (normalize_dict_keys out)).errors, (List.foldl unknownKeyWarn (validate_field "leap_events" (jget (normalize_dict_keys out) "leap_events") (validate_field "scheduled_events" (jget (normalize_dict_keys out) "scheduled_events") (validate_field "timer" (jget (normalize_dict_keys out) "timer") (validate_field "image_info" (jget (normalize_dict_keys out) "image_info") (validate_field "think_output" (jget (normalize_dict_keys out) "think_output") (validate_field "text" (jget (normalize_dict_keys out) "text") initValidation).2).2).2).2).2).2 (normalize_dict_keys out)).warnings⟩ := by
    unfold process_output_main
    rw [hex]
    rfl
  rw [hred]
  refine ⟨?_, ?_, ?_, ?_, ?_, ?_, ?_, ?_, rfl⟩
  · exact (validate_field_split "text" (jget (normalize_dict_keys out) "text") _).1
  · exact (validate_field_split "think_output" (jget (normalize_dict_keys out) "think_output") _).1
  · exact (validate_field_split "image_info" (jget (normalize_dict_keys out) "image_info") _).1
  · exact (validate_field_split "timer" (jget (normalize_dict_keys out) "timer") _).1
  · exact (validate_field_split "scheduled_events" (jget (normalize_dict_keys out) "scheduled_events") _).1
  · exact (validate_field_split "leap_events" (jget (normalize_dict_keys out) "leap_events") _).1
  · show (List.foldl unknownKeyWarn (validate_field "leap_events" (jget (normalize_dict_keys out) "leap_events") (validate_field "scheduled_events" (jget (normalize_dict_keys out) "scheduled_events") (validate_field "timer" (jget (normalize_dict_keys out) "timer") (validate_field "image_info" (jget (normalize_dict_keys out) "image_info") (validate_field "think_output" (jget (normalize_dict_keys out) "think_output") (validate_field "text" (jget (normalize_dict_keys out) "text") initValidation).2).2).2).2).2).2 (normalize_dict_keys out)).errors = _
    rw [foldl_unknownKeyWarn_errors, (validate_field_split "leap_events" (jget (normalize_dict_keys out) "leap_events") _).2.1, (validate_field_split "scheduled_events" (jget (normalize_dict_keys out) "scheduled_events") _).2.1, (validate_field_split "timer" (jget (normalize_dict_keys out) "timer") _).2.1, (validate_field_split "image_info" (jget (normalize_dict_keys out) "image_info") _).2.1, (validate_field_split "think_output" (jget (normalize_dict_keys out) "think_output") _).2.1, (validate_field_split "text" (jget (normalize_dict_keys out) "text") _).2.1]
    simp [initValidation, List.append_assoc]
  · show (List.foldl unknownKeyWarn (validate_field "leap_events" (jget (normalize_dict_keys out) "leap_events") (validate_field "scheduled_events" (jget (normalize_dict_keys out) "scheduled_events") (validate_field "timer" (jget (normalize_dict_keys out) "timer") (validate_field "image_info" (jget (normalize_dict_keys out) "image_info") (validate_field "think_output" (jget (normalize_dict_keys out) "think_output") (validate_field "text" (jget (normalize_dict_keys out) "text") initValidation).2).2).2).2).2).2 (normalize_dict_keys out)).is_valid = _
    rw [foldl_unknownKeyWarn_is_valid, (validate_field_split "leap_events" (jget (normalize_dict_keys out) "leap_events") _).2.2.2, (validate_field_split "scheduled_events" (jget (normalize_dict_keys out) "scheduled_events") _).2.2.2, (validate_field_split "timer" (jget (normalize_dict_keys out) "timer") _).2.2.2, (validate_field_split "image_info" (jget (normalize_dict_keys out) "image_info") _).2.2.2, (validate_field_split "think_output" (jget (normalize_dict_keys out) "think_output") _).2.2.2, (validate_field_split "text" (jget (normalize_dict_keys out) "text") _).2.2.2]
    simp [initValidation, Bool.and_assoc]

theorem fieldErrors_filter_ne (n : String) (v : Option JVal) (m : String)
    (hnm : n ≠ m) :
    (fieldErrors n v).filter (fun e => e.field == m) = [] := by
  rw [List.filter_eq_nil_iff]
  intro e he
  have hf := fieldErrors_field n v e he
  simp [hf, hnm]

/-- C9: for a payload whose `output` is a dict, validation is a total
function (never throws) returning a record with all six schema fields plus
`is_valid` and the error/warning lists; a missing required `text` key
yields `is_valid = false` with exactly one error entry for field `text`
while `text` itself degrades to `""`; keys that are unknown after
normalization produce a warning each and never an error; and every schema
field whose supplied value validates cleanly is populated with exactly
that value. -/
theorem structured_output_validation (fields out : List (String × JVal))
    (hout : jget fields "output" = some (.jdict out)) :
    (jget (normalize_dict_keys out) "text" = none →
      (process_output_main (.jdict fields)).is_valid = false ∧
      ((process_output_main (.jdict fields)).validation_errors.filter
        (fun e => e.field == "text")).length = 1 ∧
      (process_output_main (.jdict fields)).text = .jstr "") ∧
    (∀ p ∈ normalize_dict_keys out, lookupFieldDefn p.1 = none →
      ((⟨p.1, "未知字段 \x27" ++ p.1 ++ "\x27"⟩ : VWarn) ∈
        (process_output_main (.jdict fields)).validation_warnings ∧
      ∀ e ∈ (process_output_main (.jdict fields)).validation_errors,
        e.field ≠ p.1)) ∧
    (∀ f v, f ∈ knownFieldsList → jget (normalize_dict_keys out) f = some v →
      fieldErrors f (some v) = [] →
      projOut (process_output_main (.jdict fields)) f = v) := by
  obtain ⟨ht, hth, hii, hti, hsc, hle, herr, hval, hwarn⟩ :=
    process_output_main_parts fields out hout
  refine ⟨?_, ?_, ?_⟩
  · intro hmiss
    refine ⟨?_, ?_, ?_⟩
    · rw [hval, hmiss]
      rw [show fieldValid "text" (none : Option JVal) = false from rfl]
      simp
    · rw [herr, hmiss]
      rw [List.filter_append, List.filter_append, List.filter_append,
        List.filter_append, List.filter_append]
      rw [fieldErrors_filter_ne "think_output" _ _ (by decide),
        fieldErrors_filter_ne "image_info" _ _ (by decide),
        fieldErrors_filter_ne "timer" _ _ (by decide),
        fieldErrors_filter_ne "scheduled_events" _ _ (by decide),
        fieldErrors_filter_ne "leap_events" _ _ (by decide)]
      rfl
    · rw [ht, hmiss]
      rfl
  · intro p hp hunk
    constructor
    · rw [hwarn]
      exact foldl_unknownKeyWarn_mem _ _ p hp hunk
    · intro e he
      rw [herr] at he
      have hfields : e.field = "text" ∨ e.field = "think_output" ∨
          e.field = "image_info" ∨ e.field = "timer" ∨
          e.field = "scheduled_events" ∨ e.field = "leap_events" := by
        rcases List.mem_append.mp he with h | h
        case inr =>
          exact Or.inr (Or.inr (Or.inr (Or.inr (Or.inr
            (fieldErrors_field _ _ e h)))))
        rcases List.mem_append.mp h with h | h
        case inr =>
          exact Or.inr (Or.inr (Or.inr (Or.inr (Or.inl
            (fieldErrors_field _ _ e h)))))
        rcases List.mem_append.mp h with h | h
        case inr =>
          exact Or.inr (Or.inr (Or.inr (Or.inl (fieldErrors_field _ _ e h))))
        rcases List.mem_append.mp h with h | h
        case inr =>
          exact Or.inr (Or.inr (Or.inl (fieldErrors_field _ _ e h)))
        rcases List.mem_append.mp h with h | h
        case inr =>
          exact Or.inr (Or.inl (fieldErrors_field _ _ e h))
        exact Or.inl (fieldErrors_field _ _ e h)
      rcases hfields with hf | hf | hf | hf | hf | hf <;>
        · intro hcontra
          rw [← hcontra, hf] at hunk
          exact absurd hunk (by decide)
  · intro f v hf hget hok
    simp only [knownFieldsList, List.mem_cons, List.not_mem_nil, or_false] at hf
    rcases hf with rfl | rfl | rfl | rfl | rfl | rfl
    · show (process_output_main (.jdict fields)).text = v
      rw [ht, hget]
      exact fieldValue_of_no_error _ v hok
    · show (process_output_main (.jdict fields)).think_output = v
      rw [hth, hget]
      exact fieldValue_of_no_error _ v hok
    · show (process_output_main (.jdict fields)).image_info = v
      rw [hii, hget]
      exact fieldValue_of_no_error _ v hok
    · show (process_output_main (.jdict fields)).timer = v
      rw [hti, hget]
      exact fieldValue_of_no_error _ v hok
    · show (process_output_main (.jdict fields)).scheduled_events = v
      rw [hsc, hget]
      exact fieldValue_of_no_error _ v hok
    · show (process_output_main (.jdict fields)).leap_events = v
      rw [hle, hget]
      exact fieldValue_of_no_error _ v hok

/-- C9 witness: a payload missing `text`, with a valid `think_output` and
an unknown key `junk`, yields `is_valid = false`, exactly one `text`
error, a degraded empty `text`, a warning for `junk` and a correctly
populated `think_output`. -/
theorem structured_output_validation_witness :
    (process_output_main (.jdict [("output",
        .jdict [("think_output", .jstr "t"), ("junk", .jint 1)])])).is_valid
      = false ∧
    ((process_output_main (.jdict [("output",
        .jdict [("think_output", .jstr "t"), ("junk", .jint 1)])])).validation_errors.filter
      (fun e => e.field == "text")).length = 1 ∧
    (process_output_main (.jdict [("output",
        .jdict [("think_output", .jstr "t"), ("junk", .jint 1)])])).text
      = .jstr "" ∧
    (⟨"junk", "未知字段 \x27junk\x27"⟩ : VWarn) ∈
      (process_output_main (.jdict [("output",
        .jdict [("think_output", .jstr "t"), ("junk", .jint 1)])])).validation_warnings ∧
    projOut (process_output_main (.jdict [("output",
        .jdict [("think_output", .jstr "t"), ("junk", .jint 1)])]))
      "think_output" = .jstr "t" := by
  have h := structured_output_validation
    [("output", .jdict [("think_output", .jstr "t"), ("junk", .jint 1)])]
    [("think_output", .jstr "t"), ("junk", .jint 1)] rfl
  obtain ⟨hmiss, hunknown, hpop⟩ := h
  obtain ⟨hv, hlen, htxt⟩ := hmiss rfl
  refine ⟨hv, hlen, htxt, ?_, ?_⟩
  · exact (hunknown ("junk", .jint 1)
      (List.Mem.tail _ (List.Mem.head _)) rfl).1
  · exact hpop "think_output" (.jstr "t")
      (List.Mem.tail _ (List.Mem.head _)) rfl rfl

/-! ## C4 — Workflow short-circuit -/

theorem step1_cases (cfg : CrossGroupConfig) (store : Store) (b g u : String)
    (bs ia bra wl bl : String) (tm : Int) (now : Timestamp) :
    (step_1_blacklist_check cfg store b g u bs ia bra wl bl tm now).1.continue_to_step_2
        = true ∨
    ((step_1_blacklist_check cfg store b g u bs ia bra wl bl tm now).1.continue_to_step_2
        = false ∧
     (step_1_blacklist_check cfg store b g u bs ia bra wl bl tm now).1.stop_reason
        = some "block") := by
  unfold step_1_blacklist_check
  split
  · exact Or.inl rfl
  · unfold step_1_after_check
    split
    · exact Or.inl rfl
    · exact Or.inr ⟨rfl, rfl⟩

theorem step2_cases (q ms : String) (pool : MessagePool) (pick : Nat) :
    (step_2_input_length_check q ms pool pick).continue_to_step_3 = true ∨
    ((step_2_input_length_check q ms pool pick).continue_to_step_3 = false ∧
     (step_2_input_length_check q ms pool pick).stop_reason
        = some "input_exceeds_max_length") := by
  unfold step_2_input_length_check
  simp only []
  split
  · exact Or.inl rfl
  · exact Or.inr ⟨rfl, rfl⟩

theorem step3_cases (cfg : CrossGroupConfig) (store : Store) (b g u : String)
    (us ura ia ul y m d : String) (pool : MessagePool) (pick : Nat)
    (now : Timestamp) :
    (step_3_usage_limit_check cfg store b g u us ura ia ul y m d pool pick
        now).1.continue_to_step_4 = true ∨
    ((step_3_usage_limit_check cfg store b g u us ura ia ul y m d pool pick
        now).1.continue_to_step_4 = false ∧
     (step_3_usage_limit_check cfg store b g u us ura ia ul y m d pool pick
        now).1.stop_reason = some "overusage") := by
  unfold step_3_usage_limit_check
  split
  · exact Or.inl rfl
  · unfold step_3_after_check
    split
    · exact Or.inl rfl
    · exact Or.inr ⟨rfl, rfl⟩

/-- C4: every workflow run ends with stop reason `block`,
`input_exceeds_max_length`, `overusage` or `finish`; a non-`finish` result
returns the caller's own `main_prompt` with every augmentation-stage output
field at its documented default; whenever one of the three gates halts, the
run returns exactly the corresponding flattened halt record — carrying that
gate's stop reason and stop message — and the final store is the store as
of that gate (no later stage runs or writes); the four augmentation stages
never set a stop reason, so a run that passes all three gates always ends
with `finish`. -/
theorem workflow_gate_short_circuit (a : MainArgs) (store : Store)
    (now : Timestamp) (pick2 pick3 : Nat) :
    ((mainWF a store now pick2 pick3).1.stop_reason = "block" ∨
     (mainWF a store now pick2 pick3).1.stop_reason = "input_exceeds_max_length" ∨
     (mainWF a store now pick2 pick3).1.stop_reason = "overusage" ∨
     (mainWF a store now pick2 pick3).1.stop_reason = "finish") ∧
    ((mainWF a store now pick2 pick3).1.stop_reason ≠ "finish" →
      (mainWF a store now pick2 pick3).1.main_prompt = a.main_prompt ∧
      (mainWF a store now pick2 pick3).1.favor_value = 0 ∧
      (mainWF a store now pick2 pick3).1.favor_prompt = " " ∧
      (mainWF a store now pick2 pick3).1.persona = " " ∧
      (mainWF a store now pick2 pick3).1.context = " " ∧
      (mainWF a store now pick2 pick3).1.step6_context_count = 0 ∧
      (mainWF a store now pick2 pick3).1.step7_hit_memories = " ") ∧
    ((runStep1 a store now).1.continue_to_step_2 = false →
      mainWF a store now pick2 pick3 =
        (haltResultStep1 a (runStep1 a store now).1, (runStep1 a store now).2) ∧
      (mainWF a store now pick2 pick3).1.stop_reason = "block" ∧
      (mainWF a store now pick2 pick3).1.stop_message =
        (runStep1 a store now).1.stop_message) ∧
    ((runStep1 a store now).1.continue_to_step_2 = true →
      (runStep2 a pick2).continue_to_step_3 = false →
      mainWF a store now pick2 pick3 =
        (haltResultStep2 a (runStep1 a store now).1 (runStep2 a pick2),
          (runStep1 a store now).2) ∧
      (mainWF a store now pick2 pick3).1.stop_reason = "input_exceeds_max_length" ∧
      (mainWF a store now pick2 pick3).1.stop_message =
        (runStep2 a pick2).stop_message) ∧
    ((runStep1 a store now).1.continue_to_step_2 = true →
      (runStep2 a pick2).continue_to_step_3 = true →
      (runStep3 a (runStep1 a store now).2 pick3 now).1.continue_to_step_4 = false →
      mainWF a store now pick2 pick3 =
        (haltResultStep3 a (runStep1 a store now).1 (runStep2 a pick2)
          (runStep3 a (runStep1 a store now).2 pick3 now).1,
         (runStep3 a (runStep1 a store now).2 pick3 now).2) ∧
      (mainWF a store now pick2 pick3).1.stop_reason = "overusage" ∧
      (mainWF a store now pick2 pick3).1.stop_message =
        (runStep3 a (runStep1 a store now).2 pick3 now).1.stop_message) ∧
    ((runStep1 a store now).1.continue_to_step_2 = true →
      (runStep2 a pick2).continue_to_step_3 = true →
      (runStep3 a (runStep1 a store now).2 pick3 now).1.continue_to_step_4 = true →
      (mainWF a store now pick2 pick3).1.stop_reason = "finish") := by
  cases hb1 : (runStep1 a store now).1.continue_to_step_2 with
  | false =>
    have hr1 : (runStep1 a store now).1.stop_reason = some "block" := by
      rcases step1_cases (mainCfg a) store a.bot_id a.group_id a.user_id
        a.blacklist_system a.is_user_admin a.blacklist_restrict_admin_users
        a.warn_lifespan a.block_lifespan a.timestampMicros now with hc | ⟨_, hr⟩
      · rw [show runStep1 a store now = step_1_blacklist_check (mainCfg a) store
          a.bot_id a.group_id a.user_id a.blacklist_system a.is_user_admin
          a.blacklist_restrict_admin_users a.warn_lifespan a.block_lifespan
          a.timestampMicros now from rfl] at hb1
        rw [hc] at hb1
        cases hb1
      · exact hr
    have hmain : mainWF a store now pick2 pick3 =
        (haltResultStep1 a (runStep1 a store now).1, (runStep1 a store now).2) := by
      simp only [mainWF]
      rw [hb1]
      simp
    have hstop : (mainWF a store now pick2 pick3).1.stop_reason = "block" := by
      rw [hmain]
      show ((runStep1 a store now).1.stop_reason).getD "" = "block"
      rw [hr1]
      rfl
    refine ⟨Or.inl hstop, ?_, ?_, ?_, ?_, ?_⟩
    · intro
      rw [hmain]
      exact ⟨rfl, rfl, rfl, rfl, rfl, rfl, rfl⟩
    · intro
      exact ⟨hmain, hstop, by rw [hmain]; rfl⟩
    · intro hc
      cases hc
    · intro hc
      cases hc
    · intro hc
      cases hc
  | true =>
    cases hb2 : (runStep2 a pick2).continue_to_step_3 with
    | false =>
      have hr2 : (runStep2 a pick2).stop_reason = some "input_exceeds_max_length" := by
        rcases step2_cases a.user_query a.max_input_size a.overinput_output pick2
          with hc | ⟨_, hr⟩
        · rw [show runStep2 a pick2 = step_2_input_length_check a.user_query
            a.max_input_size a.overinput_output pick2 from rfl] at hb2
          rw [hc] at hb2
          cases hb2
        · exact hr
      have hmain : mainWF a store now pick2 pick3 =
          (haltResultStep2 a (runStep1 a store now).1 (runStep2 a pick2),
            (runStep1 a store now).2) := by
        simp only [mainWF]
        rw [hb1, hb2]
        simp
      have hstop : (mainWF a store now pick2 pick3).1.stop_reason =
          "input_exceeds_max_length" := by
        rw [hmain]
        show ((runStep2 a pick2).stop_reason).getD "" = "input_exceeds_max_length"
        rw [hr2]
        rfl
      refine ⟨Or.inr (Or.inl hstop), ?_, ?_, ?_, ?_, ?_⟩
      · intro
        rw [hmain]
        exact ⟨rfl, rfl, rfl, rfl, rfl, rfl, rfl⟩
      · intro hc
        cases hc
      · intro _ _
        exact ⟨hmain, hstop, by rw [hmain]; rfl⟩
      · intro _ hc
        cases hc
      · intro _ hc
        cases hc
    | true =>
      cases hb3 : (runStep3 a (runStep1 a store now).2 pick3 now).1.continue_to_step_4 with
      | false =>
        have hr3 : (runStep3 a (runStep1 a store now).2 pick3 now).1.stop_reason =
            some "overusage" := by
          rcases step3_cases (mainCfg a) (runStep1 a store now).2 a.bot_id
            a.group_id a.user_id a.usage_limit_system a.usage_restrict_admin_users
            a.is_user_admin a.usage_limit a.year a.month a.day a.overusage_output
            pick3 now with hc | ⟨_, hr⟩
          · rw [show runStep3 a (runStep1 a store now).2 pick3 now =
              step_3_usage_limit_check (mainCfg a) (runStep1 a store now).2
                a.bot_id a.group_id a.user_id a.usage_limit_system
                a.usage_restrict_admin_users a.is_user_admin a.usage_limit a.year
                a.month a.day a.overusage_output pick3 now from rfl] at hb3
            rw [hc] at hb3
            cases hb3
          · exact hr
        have hmain : mainWF a store now pick2 pick3 =
            (haltResultStep3 a (runStep1 a store now).1 (runStep2 a pick2)
              (runStep3 a (runStep1 a store now).2 pick3 now).1,
             (runStep3 a (runStep1 a store now).2 pick3 now).2) := by
          simp only [mainWF]
          rw [hb1, hb2, hb3]
          simp
        have hstop : (mainWF a store now pick2 pick3).1.stop_reason = "overusage" := by
          rw [hmain]
          show ((runStep3 a (runStep1 a store now).2 pick3 now).1.stop_reason).getD ""
            = "overusage"
          rw [hr3]
          rfl
        refine ⟨Or.inr (Or.inr (Or.inl hstop)), ?_, ?_, ?_, ?_, ?_⟩
        · intro
          rw [hmain]
          exact ⟨rfl, rfl, rfl, rfl, rfl, rfl, rfl⟩
        · intro hc
          cases hc
        · intro _ hc
          cases hc
        · intro _ _ _
          exact ⟨hmain, hstop, by rw [hmain]; rfl⟩
        · intro _ _ hc
          cases hc
      | true =>
        have hmain : (mainWF a store now pick2 pick3).1.stop_reason = "finish" := by
          simp only [mainWF]
          rw [hb1, hb2, hb3]
          simp [finishResult]
        refine ⟨Or.inr (Or.inr (Or.inr hmain)), ?_, ?_, ?_, ?_, ?_⟩
        · intro hne
          exact absurd hmain hne
        · intro hc
          cases hc
        · intro _ hc
          cases hc
        · intro _ _ hc
          cases hc
        · intro _ _ _
          exact hmain

/-- C4 witness: with the blacklist and usage gates disabled but an input
limit of 1, a 2-character query halts at step 2: the stop reason is
reported, the caller's prompt is returned unchanged and the later stage
fields hold their defaults. -/
theorem workflow_gate_short_circuit_witness :
    (mainWF sampleHaltArgs [] (sampleTime 0) 0 0).1.stop_reason
      = "input_exceeds_max_length" ∧
    (mainWF sampleHaltArgs [] (sampleTime 0) 0 0).1.main_prompt = "M" ∧
    (mainWF sampleHaltArgs [] (sampleTime 0) 0 0).1.favor_prompt = " " := by
  have h := workflow_gate_short_circuit sampleHaltArgs [] (sampleTime 0) 0 0
  have h4 := h.2.2.2.1 (by decide) (by decide)
  have hd := h.2.1 (by rw [h4.2.1]; decide)
  exact ⟨h4.2.1, hd.1, hd.2.2.1⟩

end Roza
